import Mathlib

/-!
Verification of the django-anymail ESP normalization layer (Amazon SES and
Mailjet backends and the Amazon SES webhook), shallowly embedded in Lean.

Python dicts are embedded as association lists with Python assignment
semantics (`dset` replaces in place, else appends), JSON values as `JVal`,
and fallible operations return `Except`/`Option` error components.
-/

set_option autoImplicit false

universe u

/-- A JSON-ish value, as found in merge-data variables. -/
inductive JVal where
  | null
  | str (s : String)
  | num (n : Int)
  | boolean (b : Bool)
deriving DecidableEq, Repr

/-- Python dict lookup (`d.get(k)`) on an association list. -/
def dlookup {α : Type u} : List (String × α) → String → Option α
  | [], _ => none
  | (k, v) :: rest, key => if k = key then some v else dlookup rest key

/-- Python `k in d`. -/
def dmem {α : Type u} (m : List (String × α)) (k : String) : Bool :=
  (dlookup m k).isSome

/-- Python dict assignment `d[k] = v`: replace in place, else append. -/
def dset {α : Type u} : List (String × α) → String → α → List (String × α)
  | [], key, v => [(key, v)]
  | (k, w) :: rest, key, v =>
    if k = key then (k, v) :: rest else (k, w) :: dset rest key v

/-- Python `d.pop(k, default)` effect on the dict: drop the first entry for `k`. -/
def dremove {α : Type u} : List (String × α) → String → List (String × α)
  | [], _ => []
  | (k, w) :: rest, key =>
    if k = key then rest else (k, w) :: dremove rest key

/-- Python `base.update(overlay)`. -/
def pyUpdate {α : Type u} (base overlay : List (String × α)) : List (String × α) :=
  overlay.foldl (fun acc kv => dset acc kv.1 kv.2) base

/-- Normalized per-recipient send outcome (`anymail.message.AnymailRecipientStatus`). -/
structure AnymailRecipientStatus where
  message_id : Option String
  status : String
deriving DecidableEq, Repr

namespace Mailjet

/-- One recipient entry of a Mailjet send-API response (`To`/`Cc`/`Bcc` item). -/
structure ResponseRecipient where
  Email : String
  MessageID : Nat
deriving DecidableEq, Repr

/-- One `Messages` item of a Mailjet send-API response. -/
structure ResponseMessage where
  Status : String
  To : List ResponseRecipient
  Cc : List ResponseRecipient
  Bcc : List ResponseRecipient
deriving DecidableEq, Repr

/-- A parsed Mailjet send-API JSON response body. -/
structure Response where
  ErrorCode : Option String
  Messages : List ResponseMessage
deriving DecidableEq, Repr

/-- All recipient entries reported in one response message. -/
def messageRecipients (msg : ResponseMessage) : List ResponseRecipient :=
  msg.To ++ msg.Cc ++ msg.Bcc

/-- Inner loop of `EmailBackend.parse_recipient_status`: record each reported
recipient with `str(MessageID)` and the message-level sent/failed status. -/
def insertRecipients (st : String) :
    List ResponseRecipient → List (String × AnymailRecipientStatus) →
      List (String × AnymailRecipientStatus)
  | [], acc => acc
  | r :: rest, acc =>
    insertRecipients st rest (dset acc r.Email ⟨some (toString r.MessageID), st⟩)

/-- Outer loop of `EmailBackend.parse_recipient_status` over `Messages`. -/
def collectStatuses :
    List ResponseMessage → List (String × AnymailRecipientStatus) →
      List (String × AnymailRecipientStatus)
  | [], acc => acc
  | msg :: rest, acc =>
    collectStatuses rest
      (insertRecipients (if msg.Status = "success" then "sent" else "failed")
        (messageRecipients msg) acc)

/-- Final loop of `EmailBackend.parse_recipient_status`: any addressed recipient
not already reported becomes `failed` with a null message id. -/
def fillMissing :
    List String → List (String × AnymailRecipientStatus) →
      List (String × AnymailRecipientStatus)
  | [], acc => acc
  | e :: rest, acc =>
    fillMissing rest (if dmem acc e then acc else acc ++ [(e, ⟨none, "failed"⟩)])

/-- `EmailBackend.parse_recipient_status` (backends/mailjet.py): a global
`ErrorCode` raises; otherwise reported recipients are classified and addressed
recipients missing from the report default to `failed`. -/
def parse_recipient_status (resp : Response) (payloadRecipients : List String) :
    Except String (List (String × AnymailRecipientStatus)) :=
  if resp.ErrorCode.isSome then
    .error "AnymailRequestsAPIError"
  else
    .ok (fillMissing payloadRecipients (collectStatuses resp.Messages []))

/-- `EmailBackend.raise_for_status` composed with the base backend response
handling: 4xx means partial failure (proceed to parse); outside 2xx/4xx the
base backend raises an API error before any status parsing. -/
def sendResult (statusCode : Nat) (resp : Response) (payloadRecipients : List String) :
    Except String (List (String × AnymailRecipientStatus)) :=
  if (400 ≤ statusCode ∧ statusCode ≤ 499) ∨ (200 ≤ statusCode ∧ statusCode ≤ 299) then
    parse_recipient_status resp payloadRecipients
  else
    .error "AnymailRequestsAPIError"

/-- Emails reported anywhere in the response's `Messages`. -/
def reportedEmails : List ResponseMessage → List String
  | [] => []
  | msg :: rest => (messageRecipients msg).map (·.Email) ++ reportedEmails rest

end Mailjet

namespace AmazonSES

/-- A parsed Amazon SES `send_raw_email` response; `none` models a response
with no `MessageId` key. -/
structure Response where
  MessageId : Option String
deriving DecidableEq, Repr

/-- The dict comprehension in `EmailBackend.parse_recipient_status`:
every addressed recipient maps to the same queued status. -/
def statusDict (mid : String) :
    List String → List (String × AnymailRecipientStatus) →
      List (String × AnymailRecipientStatus)
  | [], acc => acc
  | r :: rest, acc => statusDict mid rest (dset acc r ⟨some mid, "queued"⟩)

/-- `EmailBackend.parse_recipient_status` (backends/amazon_ses.py): missing
`MessageId` raises an API error, otherwise all addressed recipients are
`queued` with the single response message id. -/
def parse_recipient_status (resp : Response) (all_recipients : List String) :
    Except String (List (String × AnymailRecipientStatus)) :=
  match resp.MessageId with
  | none => .error "AnymailAPIError parsing Amazon SES send result"
  | some mid => .ok (statusDict mid all_recipients [])

/-- The AWS Tags character set: a-z, A-Z, 0-9, hyphen and underscore. -/
def isTagAllowed (c : Char) : Bool :=
  ('A' ≤ c && c ≤ 'Z') || ('a' ≤ c && c ≤ 'z') || ('0' ≤ c && c ≤ '9') ||
    c = '_' || c = '-'

/-- The whitespace class matched by the first regex of `_clean_tag`. -/
def isPyWhitespace (c : Char) : Bool :=
  c = ' ' || c = '\t' || c = '\n' || c = '\r' || c = '\x0b' || c = '\x0c'

/-- `re.sub(p+, rep, s)` for a character class `p`: replace each maximal run
of `p`-characters by the single character `rep`. The flag records whether the
previous character was part of a run. -/
def subRunsAux (p : Char → Bool) (rep : Char) : Bool → List Char → List Char
  | _, [] => []
  | inRun, c :: cs =>
    if p c then
      if inRun then subRunsAux p rep true cs
      else rep :: subRunsAux p rep true cs
    else c :: subRunsAux p rep false cs

def subRuns (p : Char → Bool) (rep : Char) (l : List Char) : List Char :=
  subRunsAux p rep false l

/-- The character-level body of `AmazonSESPayload._clean_tag`: whitespace runs
to a single underscore, then runs of other prohibited characters to a single
hyphen. -/
def cleanChars (l : List Char) : List Char :=
  subRuns (fun c => !isTagAllowed c) '-' (subRuns isPyWhitespace '_' l)

/-- `AmazonSESPayload._clean_tag` (backends/amazon_ses.py). -/
def _clean_tag (s : String) : String :=
  String.mk (cleanChars s.data)

/-- A normalized tracking event (`anymail.signals.AnymailTrackingEvent`),
restricted to the fields the Amazon SES webhook tests inspect. -/
structure TrackingEvent where
  event_type : String
  timestamp : Option String
  message_id : Option String
  event_id : Option String
  recipient : Option String
  reject_reason : Option String
  description : Option String
  mta_response : Option String
deriving DecidableEq, Repr

/-- One `bouncedRecipients` item of an SES bounce notification. -/
structure SESBouncedRecipient where
  emailAddress : String
  status : String
  action : String
  diagnosticCode : String
deriving DecidableEq, Repr

/-- The nested `bounce` object of an SES bounce notification. -/
structure SESBounceObject where
  bounceType : String
  bounceSubType : String
  bouncedRecipients : List SESBouncedRecipient
  timestamp : String
  feedbackId : String
deriving DecidableEq, Repr

/-- The `mail` object of an SES notification. -/
structure SESMailObject where
  timestamp : String
  source : String
  messageId : String
  destination : List String
deriving DecidableEq, Repr

/-- A parsed SES event (the JSON document carried in the SNS `Message`). -/
structure SESEventObject where
  notificationType : String
  bounce : Option SESBounceObject
  mail : SESMailObject
deriving DecidableEq, Repr

/-- The SNS `Message` field: either a string that parses as an SES event JSON
document, or a plain non-JSON string. -/
inductive SnsMessageBody where
  | jsonEvent (ev : SESEventObject)
  | plain (s : String)
deriving DecidableEq, Repr

/-- A validated SNS message body (`request._sns_message` after
`validate_request`), restricted to the fields the webhook reads. -/
structure SnsMessage where
  msgType : String
  messageId : String
  token : Option String
  topicArn : Option String
  subscribeURL : String
  message : SnsMessageBody
deriving DecidableEq, Repr

/-- Python `str()` of an optional value fetched with `dict.get`. -/
def pyStr : Option String → String
  | some s => s
  | none => "None"

/-- The `AnymailWebhookValidationFailure` text raised by
`auto_confirm_sns_subscription` when no shared secret is configured. -/
def confirmFailureText (msg : SnsMessage) : String :=
  "Anymail received an unexpected SubscriptionConfirmation request for Amazon SNS topic \x27"
    ++ pyStr msg.topicArn
    ++ "\x27. (Anymail can automatically confirm SNS subscriptions if you set a WEBHOOK_SECRET and use that in your SNS notification url. Or you can manually confirm this subscription in the SNS dashboard with token \x27"
    ++ pyStr msg.token ++ "\x27.)"

/-- Outcome of `auto_confirm_sns_subscription`: return without action, raise a
validation failure, or issue the HTTP GET of the SubscribeURL. -/
inductive SnsConfirmAction where
  | ignored
  | failed (text : String)
  | fetched (url : String)
deriving DecidableEq, Repr

def SnsConfirmAction.isFetch : SnsConfirmAction → Bool
  | .fetched _ => true
  | _ => false

def SnsConfirmAction.isFail : SnsConfirmAction → Bool
  | .failed _ => true
  | _ => false

/-- `AmazonSESBaseWebhookView.auto_confirm_sns_subscription`
(webhooks/amazon_ses.py): skip when the auto-confirm setting is off; raise a
validation failure reporting the manual token when no basic-auth shared secret
is configured; otherwise fetch the SubscribeURL. (By this point a configured
shared secret has already been verified by the base view validators.) -/
def auto_confirm_sns_subscription (auto_confirm_enabled basic_auth : Bool)
    (msg : SnsMessage) : SnsConfirmAction :=
  if auto_confirm_enabled = false then .ignored
  else if basic_auth = false then .failed (confirmFailureText msg)
  else .fetched msg.subscribeURL

/-- `AmazonSESTrackingWebhookView.esp_to_anymail_events`
(webhooks/amazon_ses.py line 133): the source is a stub that returns `[]`. -/
def esp_to_anymail_events (ses_event : SESEventObject) (sns_message : SnsMessage) :
    List TrackingEvent :=
  []

/-- `AmazonSESBaseWebhookView.parse_events` (webhooks/amazon_ses.py) for the
tracking view, after `validate_request` has succeeded. -/
def parse_events (auto_confirm_enabled basic_auth : Bool) (msg : SnsMessage) :
    Except String (List TrackingEvent) :=
  if msg.msgType = "Notification" then
    match msg.message with
    | .jsonEvent ev => .ok (esp_to_anymail_events ev msg)
    | .plain s =>
      if s = "Successfully validated SNS topic for Amazon SES event publishing." then
        .ok []
      else
        .error "Unparsable SNS Message"
  else if msg.msgType = "SubscriptionConfirmation" then
    match auto_confirm_sns_subscription auto_confirm_enabled basic_auth msg with
    | .failed e => .error e
    | _ => .ok []
  else
    .ok []

/-- The bounce notification fixture of
`AmazonSESNotificationsTests.test_bounce_event`. -/
def bounceFixtureEvent : SESEventObject :=
  { notificationType := "Bounce"
  , bounce := some
      { bounceType := "Permanent"
      , bounceSubType := "General"
      , bouncedRecipients :=
          [{ emailAddress := "jane@example.com"
           , status := "5.1.1"
           , action := "failed"
           , diagnosticCode := "smtp; 550 5.1.1 <jane@example.com>... User unknown" }]
      , timestamp := "2016-01-27T14:59:44.101Z"
      , feedbackId := "00000138111222aa-44455566-cccc-cccc-cccc-ddddaaaa068a-000000" }
  , mail :=
      { timestamp := "2016-01-27T14:59:38.237Z"
      , source := "john@example.com"
      , messageId := "00000138111222aa-33322211-cccc-cccc-cccc-ddddaaaa0680-000000"
      , destination := ["jane@example.com", "mary@example.com", "richard@example.com"] } }

/-- The SNS envelope of the bounce fixture. -/
def bounceFixtureSns : SnsMessage :=
  { msgType := "Notification"
  , messageId := "19ba9823-d7f2-53c1-860e-cb10e0d13dfc"
  , token := none
  , topicArn := some "arn:aws:sns:us-east-1:1234567890:SES_Events"
  , subscribeURL := ""
  , message := .jsonEvent bounceFixtureEvent }

/-- The SNS SubscriptionConfirmation fixture of
`AmazonSESSubscriptionManagementTests`. -/
def confirmFixtureSns : SnsMessage :=
  { msgType := "SubscriptionConfirmation"
  , messageId := "165545c9-2a5c-472c-8df2-7ff2be2b3b1b"
  , token := some "EXAMPLE_TOKEN"
  , topicArn := some "arn:aws:sns:us-west-2:123456789012:SES_Notifications"
  , subscribeURL := "https://sns.us-west-2.amazonaws.com/?Action=ConfirmSubscription&TopicArn=..."
  , message := .plain "You have chosen to subscribe ..." }

end AmazonSES

/-- A parsed email participant (`anymail.utils.EmailAddress`), restricted to
the fields the backends read; an empty display name is falsy in the source. -/
structure EmailAddress where
  addr_spec : String
  display_name : String
deriving DecidableEq, Repr

/-- Generic driver for payload construction: apply each set operation in turn;
an operation that raises (second component `some err`) aborts the remaining
steps, keeping the state already built. -/
def runSteps {σ : Type u} : σ → List (σ → σ × Option String) → σ × Option String
  | st, [] => (st, none)
  | st, f :: fs =>
    match f st with
    | (st2, none) => runSteps st2 fs
    | (st2, some e) => (st2, some e)

namespace Mailjet

/-- Mailjet's wire representation of one address (`_mailjet_email` result). -/
structure MailjetEmail where
  Email : String
  Name : Option String
deriving DecidableEq, Repr

/-- One wire attachment object built by `add_attachment`. -/
structure Attachment where
  ContentType : String
  Filename : String
  Base64Content : String
  ContentID : Option String
deriving DecidableEq, Repr

/-- An abstract attachment as handed to the payload. -/
structure AttachmentInput where
  mimetype : String
  name : String
  b64content : String
  inline : Bool
  cid : String
deriving DecidableEq, Repr

/-- A JSON value stored in the Mailjet `Messages` item (`self.data`). -/
inductive MJVal where
  | str (s : String)
  | int (n : Int)
  | boolean (b : Bool)
  | emailObj (e : MailjetEmail)
  | emailList (l : List MailjetEmail)
  | headersObj (h : List (String × String))
  | varsObj (v : List (String × JVal))
  | attList (l : List Attachment)
  | jsonStr (m : List (String × String))
deriving DecidableEq, Repr

/-- `MailjetPayload._mailjet_email`: `Name` is present only for a truthy
(non-empty) display name. -/
def _mailjet_email (email : EmailAddress) : MailjetEmail :=
  { Email := email.addr_spec
  , Name := if email.display_name = "" then none else some email.display_name }

def nonNull : JVal → Bool
  | .null => false
  | _ => true

/-- `MailjetPayload._strip_none`: drop keys whose value is JSON null. -/
def _strip_none (vars : List (String × JVal)) : List (String × JVal) :=
  vars.filter (fun kv => nonNull kv.2)

/-- The value of `data["Variables"]`, defaulting to the empty dict. -/
def globalVars (body : List (String × MJVal)) : List (String × JVal) :=
  match dlookup body "Variables" with
  | some (.varsObj v) => v
  | _ => []

/-- The value of `data["To"]`, defaulting to the empty list (`pop("To", [])`). -/
def toRecipients (body : List (String × MJVal)) : List MailjetEmail :=
  match dlookup body "To" with
  | some (.emailList l) => l
  | _ => []

/-- `MailjetPayload._expand_merge_data`: one copy of `self.data` per To
recipient, with that recipient's merge variables overlaid on the globals and
nulls stripped. -/
def _expand_merge_data (body : List (String × MJVal))
    (merge_data : List (String × List (String × JVal))) :
    List (List (String × MJVal)) :=
  let body0 := if dmem body "Variables" then body else dset body "Variables" (.varsObj [])
  let tos := toRecipients body0
  let base := dremove body0 "To"
  tos.map (fun toItem =>
    let data := dset base "To" (.emailList [toItem])
    match dlookup merge_data toItem.Email with
    | some mvars =>
      dset data "Variables" (.varsObj (_strip_none (pyUpdate (globalVars base) mvars)))
    | none => data)

/-- The state accumulated by `MailjetPayload` during construction:
`data["Headers"]` (a case-insensitive dict) is held apart from the rest of
`self.data`; `merge_data` and `recipients` are the late-bound attributes. -/
structure MailjetPayloadState where
  headers : List (String × String)
  body : List (String × MJVal)
  merge_data : Option (List (String × List (String × JVal)))
  recipients : List String
deriving DecidableEq, Repr

/-- `CaseInsensitiveDict.pop(k)`: remove the first case-insensitive match. -/
def ciPop : List (String × String) → String → Option String × List (String × String)
  | [], _ => (none, [])
  | (k0, v0) :: rest, k =>
    if k0.toLower = k.toLower then (some v0, rest)
    else
      let r := ciPop rest k
      (r.1, (k0, v0) :: r.2)

/-- `CaseInsensitiveDict.__setitem__`: replace a case-insensitive match in
place, else append. -/
def ciSet : List (String × String) → String → String → List (String × String)
  | [], k, v => [(k, v)]
  | (k0, v0) :: rest, k, v =>
    if k0.toLower = k.toLower then (k, v) :: rest else (k0, v0) :: ciSet rest k v

/-- `MailjetPayload.serialize_data`: a Reply-To extra header becomes the
ReplyTo param (the address-list parse of the raw header string is abstracted),
empty Headers are deleted, SandboxMode is hoisted to the payload root, and
merge data expands the message. Returns (Messages, SandboxMode). -/
def serialize_data (st : MailjetPayloadState) :
    List (List (String × MJVal)) × Option MJVal :=
  let rp := ciPop st.headers "Reply-To"
  let body1 := match rp.1 with
    | some v => dset st.body "ReplyTo" (.str v)
    | none => st.body
  let body2 := if rp.2.isEmpty then body1 else dset body1 "Headers" (.headersObj rp.2)
  let sandbox := dlookup body2 "SandboxMode"
  let body3 := dremove body2 "SandboxMode"
  let msgs := match st.merge_data with
    | some md => _expand_merge_data body3 md
    | none => [body3]
  (msgs, sandbox)

/-- `MailjetPayload.init_payload`: `self.data = {"Headers": {}}` plus the
late-bound attributes. -/
def init_payload : MailjetPayloadState :=
  { headers := [], body := [], merge_data := none, recipients := [] }

def set_from_email (st : MailjetPayloadState) (email : EmailAddress) :
    MailjetPayloadState :=
  { st with body := dset st.body "From" (.emailObj (_mailjet_email email)) }

/-- `set_recipients` for `recipient_field` in To/Cc/Bcc. -/
def set_recipients (st : MailjetPayloadState) (recipient_field : String)
    (emails : List EmailAddress) : MailjetPayloadState :=
  if emails.length > 0 then
    { st with
      body := dset st.body recipient_field (.emailList (emails.map _mailjet_email))
      recipients := st.recipients ++ emails.map (·.addr_spec) }
  else st

def set_subject (st : MailjetPayloadState) (subject : String) : MailjetPayloadState :=
  { st with body := dset st.body "Subject" (.str subject) }

/-- `set_reply_to`: writes the first address, then raises for multiples. -/
def set_reply_to (st : MailjetPayloadState) (emails : List EmailAddress) :
    MailjetPayloadState × Option String :=
  match emails with
  | [] => (st, none)
  | e :: rest =>
    ({ st with body := dset st.body "ReplyTo" (.emailObj (_mailjet_email e)) },
     if rest.isEmpty then none else some "Multiple reply_to addresses")

def set_extra_headers (st : MailjetPayloadState) (headers : List (String × String)) :
    MailjetPayloadState :=
  { st with headers := headers.foldl (fun acc kv => ciSet acc kv.1 kv.2) st.headers }

/-- `set_text_body`: skipped for a falsy (empty) body. -/
def set_text_body (st : MailjetPayloadState) (body : String) : MailjetPayloadState :=
  if body = "" then st else { st with body := dset st.body "TextPart" (.str body) }

/-- `set_html_body`: raises before writing when an HTMLPart already exists. -/
def set_html_body (st : MailjetPayloadState) (body : String) :
    MailjetPayloadState × Option String :=
  if dmem st.body "HTMLPart" then (st, some "multiple html parts")
  else ({ st with body := dset st.body "HTMLPart" (.str body) }, none)

def add_attachment (st : MailjetPayloadState) (attachment : AttachmentInput) :
    MailjetPayloadState :=
  let att : Attachment :=
    { ContentType := attachment.mimetype
    , Filename := attachment.name
    , Base64Content := attachment.b64content
    , ContentID := if attachment.inline then some attachment.cid else none }
  let field := if attachment.inline then "InlinedAttachments" else "Attachments"
  let existing := match dlookup st.body field with
    | some (.attList l) => l
    | _ => []
  { st with body := dset st.body field (.attList (existing ++ [att])) }

def set_envelope_sender (st : MailjetPayloadState) (email : EmailAddress) :
    MailjetPayloadState :=
  { st with body := dset st.body "Sender" (.str email.addr_spec) }

/-- `set_metadata`: the metadata mapping serialized to a JSON string,
modeled structurally. -/
def set_metadata (st : MailjetPayloadState) (metadata : List (String × String)) :
    MailjetPayloadState :=
  { st with body := dset st.body "EventPayload" (.jsonStr metadata) }

/-- Python `repr` of a list of simple strings, as used by the `%r` format in
`set_tags`. -/
def pyReprStrList (l : List String) : String :=
  "[" ++ String.intercalate ", " (l.map (fun t => "\x27" ++ t ++ "\x27")) ++ "]"

/-- `set_tags`: writes the first tag as CustomCampaign, then raises for
multiples. -/
def set_tags (st : MailjetPayloadState) (tags : List String) :
    MailjetPayloadState × Option String :=
  match tags with
  | [] => (st, none)
  | t :: rest =>
    ({ st with body := dset st.body "CustomCampaign" (.str t) },
     if rest.isEmpty then none
     else some ("multiple tags (" ++ pyReprStrList (t :: rest) ++ ")"))

def set_track_clicks (st : MailjetPayloadState) (track_clicks : Bool) :
    MailjetPayloadState :=
  let v : MJVal := .str (if track_clicks then "enabled" else "disabled")
  { st with body := dset st.body "TrackClicks" v }

def set_track_opens (st : MailjetPayloadState) (track_opens : Bool) :
    MailjetPayloadState :=
  let v : MJVal := .str (if track_opens then "enabled" else "disabled")
  { st with body := dset st.body "TrackOpens" v }

def set_template_id (st : MailjetPayloadState) (template_id : Int) :
    MailjetPayloadState :=
  let b1 := dset st.body "TemplateID" (.int template_id)
  { st with body := dset b1 "TemplateLanguage" (.boolean true) }

def set_merge_data (st : MailjetPayloadState)
    (merge_data : List (String × List (String × JVal))) : MailjetPayloadState :=
  { st with merge_data := some merge_data }

def set_merge_global_data (st : MailjetPayloadState)
    (merge_global_data : List (String × JVal)) : MailjetPayloadState :=
  { st with body := dset st.body "Variables" (.varsObj (_strip_none merge_global_data)) }

def set_esp_extra (st : MailjetPayloadState) (extra : List (String × MJVal)) :
    MailjetPayloadState :=
  { st with body := pyUpdate st.body extra }

/-- The abstract outbound message, with `Option`/empty-list fields for
anything the caller may leave unset. -/
structure Message where
  from_email : EmailAddress
  to_ : List EmailAddress
  cc : List EmailAddress
  bcc : List EmailAddress
  subject : String
  text_body : String
  html_body : Option String
  reply_to : List EmailAddress
  extra_headers : List (String × String)
  attachments : List AttachmentInput
  envelope_sender : Option EmailAddress
  metadata : Option (List (String × String))
  tags : Option (List String)
  track_clicks : Option Bool
  track_opens : Option Bool
  template_id : Option Int
  merge_data : Option (List (String × List (String × JVal)))
  merge_global_data : Option (List (String × JVal))
  esp_extra : Option (List (String × MJVal))
deriving DecidableEq, Repr

/-- Modelled from the spec: the base payload's field dispatch
(backends/base.py, not under src/) invokes each set operation only for fields
the caller actually supplied, and a raised UnsupportedFeature aborts the
remaining construction steps. -/
def build (m : Message) : MailjetPayloadState × Option String :=
  runSteps init_payload [
    fun st => (set_from_email st m.from_email, none),
    fun st => (set_recipients st "To" m.to_, none),
    fun st => (set_recipients st "Cc" m.cc, none),
    fun st => (set_recipients st "Bcc" m.bcc, none),
    fun st => (set_subject st m.subject, none),
    fun st => (set_extra_headers st m.extra_headers, none),
    fun st => set_reply_to st m.reply_to,
    fun st => (set_text_body st m.text_body, none),
    fun st => match m.html_body with
      | some b => set_html_body st b
      | none => (st, none),
    fun st => (m.attachments.foldl add_attachment st, none),
    fun st => match m.envelope_sender with
      | some e => (set_envelope_sender st e, none)
      | none => (st, none),
    fun st => match m.metadata with
      | some md => (set_metadata st md, none)
      | none => (st, none),
    fun st => match m.tags with
      | some ts => set_tags st ts
      | none => (st, none),
    fun st => match m.track_clicks with
      | some b => (set_track_clicks st b, none)
      | none => (st, none),
    fun st => match m.track_opens with
      | some b => (set_track_opens st b, none)
      | none => (st, none),
    fun st => match m.template_id with
      | some tid => (set_template_id st tid, none)
      | none => (st, none),
    fun st => match m.merge_data with
      | some md => (set_merge_data st md, none)
      | none => (st, none),
    fun st => match m.merge_global_data with
      | some mgd => (set_merge_global_data st mgd, none)
      | none => (st, none),
    fun st => match m.esp_extra with
      | some ex => (set_esp_extra st ex, none)
      | none => (st, none)
  ]

end Mailjet

/-- Drop null-valued entries of an optional lookup result (the effect of
`_strip_none` on one key). -/
def stripVal (o : Option JVal) : Option JVal :=
  o.bind (fun x => if x = JVal.null then none else some x)

namespace Mailjet

/-- A concrete merge-data payload used as a witness input. -/
def mergeFixtureBody : List (String × MJVal) :=
  [("From", .emailObj ⟨"f@x.com", none⟩),
   ("Subject", .str "hi"),
   ("To", .emailList [⟨"a@x.com", none⟩, ⟨"b@x.com", none⟩]),
   ("Variables", .varsObj [("g", .str "G")])]

/-- Concrete witness merge data: recipient a@x.com overrides "g" with null and
adds "n". -/
def mergeFixtureMd : List (String × List (String × JVal)) :=
  [("a@x.com", [("n", .str "A"), ("g", .null)])]

end Mailjet

namespace AmazonSES

/-- A MIME header value: plain text, or the JSON serialization of a mapping
(modeled structurally). -/
inductive HVal where
  | text (s : String)
  | jsonObj (m : List (String × String))
deriving DecidableEq, Repr

/-- One SES `Tags` entry (`{"Name": ..., "Value": ...}`). -/
structure SESTag where
  Name : String
  Value : String
deriving DecidableEq, Repr

/-- A value of the `send_raw_email` params dict. -/
inductive PVal where
  | str (s : String)
  | strList (l : List String)
  | tagList (l : List SESTag)
  | rawMessage (headers : List (String × HVal))
deriving DecidableEq, Repr

/-- The state accumulated by `AmazonSESPayload`: recipients, the MIME message
(modeled by its headers), and the boto3 params dict. -/
structure AmazonSESPayloadState where
  all_recipients : List String
  mime_headers : List (String × HVal)
  params : List (String × PVal)
deriving DecidableEq, Repr

/-- `AmazonSESPayload.init_payload`: empty recipients, the rendered Django
MIME message, and params holding only an optional ConfigurationSetName. -/
def init_payload (configuration_set_name : Option String)
    (mime_headers : List (String × HVal)) : AmazonSESPayloadState :=
  { all_recipients := []
  , mime_headers := mime_headers
  , params := match configuration_set_name with
      | some n => [("ConfigurationSetName", .str n)]
      | none => [] }

/-- `set_from_email_list`: an explicit Source only for multiple from
addresses. -/
def set_from_email_list (st : AmazonSESPayloadState) (emails : List EmailAddress) :
    AmazonSESPayloadState :=
  match emails with
  | e1 :: _ :: _ => { st with params := dset st.params "Source" (.str e1.addr_spec) }
  | _ => st

/-- `set_recipients`: recipients only accumulate (the addresses are already in
the MIME message). -/
def set_recipients (st : AmazonSESPayloadState) (emails : List EmailAddress) :
    AmazonSESPayloadState :=
  { st with all_recipients := st.all_recipients ++ emails.map (·.addr_spec) }

def set_envelope_sender (st : AmazonSESPayloadState) (email : EmailAddress) :
    AmazonSESPayloadState :=
  { st with params := dset st.params "Source" (.str email.addr_spec) }

/-- `set_spoofed_to_header`: explicit Destinations from the accumulated
recipients. -/
def set_spoofed_to_header (st : AmazonSESPayloadState) : AmazonSESPayloadState :=
  { st with params := dset st.params "Destinations" (.strList st.all_recipients) }

/-- `self.params.setdefault("Tags", [])`. -/
def getTagsParam (params : List (String × PVal)) : List SESTag :=
  match dlookup params "Tags" with
  | some (.tagList l) => l
  | _ => []

/-- `set_metadata`: an X-Metadata header carrying the JSON-serialized mapping,
plus one cleaned Name/Value pair per key in the `Tags` param. -/
def set_metadata (st : AmazonSESPayloadState) (metadata : List (String × String)) :
    AmazonSESPayloadState :=
  let newTags := metadata.map (fun kv => SESTag.mk (_clean_tag kv.1) (_clean_tag kv.2))
  { st with
    mime_headers := st.mime_headers ++ [("X-Metadata", .jsonObj metadata)]
    params := dset st.params "Tags" (.tagList (getTagsParam st.params ++ newTags)) }

/-- Python `"__".join`. -/
def joinDunder : List String → String
  | [] => ""
  | [t] => t
  | t :: rest => t ++ "__" ++ joinDunder rest

/-- `set_tags`: one X-Tag header per tag, plus a single `Tags` entry whose
value joins the cleaned tags with double underscores. -/
def set_tags (st : AmazonSESPayloadState) (tags : List String) :
    AmazonSESPayloadState :=
  let hdrs := tags.map (fun t => ("X-Tag", HVal.text t))
  let cleaned_tags := joinDunder (tags.map _clean_tag)
  { st with
    mime_headers := st.mime_headers ++ hdrs
    params := dset st.params "Tags"
      (.tagList (getTagsParam st.params ++ [SESTag.mk "Tags" cleaned_tags])) }

def set_esp_extra (st : AmazonSESPayloadState) (extra : List (String × PVal)) :
    AmazonSESPayloadState :=
  { st with params := pyUpdate st.params extra }

/-- `get_api_params`: the params dict with the rendered RawMessage added. -/
def get_api_params (st : AmazonSESPayloadState) : List (String × PVal) :=
  dset st.params "RawMessage" (.rawMessage st.mime_headers)

/-- The abstract outbound message for the Amazon SES backend. -/
structure Message where
  from_emails : List EmailAddress
  to_ : List EmailAddress
  cc : List EmailAddress
  bcc : List EmailAddress
  mime_headers : List (String × HVal)
  spoofed_to : Bool
  envelope_sender : Option EmailAddress
  metadata : Option (List (String × String))
  tags : Option (List String)
  template_id : Option String
  merge_data : Option (List (String × List (String × JVal)))
  merge_global_data : Option (List (String × JVal))
  esp_extra : Option (List (String × PVal))
deriving DecidableEq, Repr

/-- Modelled from the spec: the base payload's field dispatch
(backends/base.py, not under src/) applies each set operation only for fields
the caller supplied; `set_template_id`, `set_merge_data` and
`set_merge_global_data` raise UnsupportedFeature with the feature strings of
backends/amazon_ses.py, aborting construction. -/
def build_payload (configuration_set_name : Option String) (m : Message) :
    AmazonSESPayloadState × Option String :=
  runSteps (init_payload configuration_set_name m.mime_headers) [
    fun st => (set_from_email_list st m.from_emails, none),
    fun st => (set_recipients st m.to_, none),
    fun st => (set_recipients st m.cc, none),
    fun st => (set_recipients st m.bcc, none),
    fun st => ((if m.spoofed_to then set_spoofed_to_header st else st), none),
    fun st => ((match m.envelope_sender with
      | some e => set_envelope_sender st e
      | none => st), none),
    fun st => ((match m.metadata with
      | some md => set_metadata st md
      | none => st), none),
    fun st => ((match m.tags with
      | some ts => set_tags st ts
      | none => st), none),
    fun st => (st, match m.template_id with
      | some _ => some "template_id"
      | none => none),
    fun st => (st, match m.merge_data with
      | some _ => some "merge_data without template_id"
      | none => none),
    fun st => (st, match m.merge_global_data with
      | some _ => some "global_merge_data without template_id"
      | none => none),
    fun st => ((match m.esp_extra with
      | some ex => set_esp_extra st ex
      | none => st), none)
  ]

/-- Whether a send reached the ESP (`client.send_raw_email`) or aborted during
payload construction. -/
inductive SendTrace where
  | calledESP (params : List (String × PVal))
  | aborted (err : String)
deriving DecidableEq, Repr

/-- Modelled from the spec: the send pipeline builds the payload first and
calls the ESP only when construction raised nothing. -/
def send_message (configuration_set_name : Option String) (m : Message) :
    SendTrace :=
  match build_payload configuration_set_name m with
  | (st, none) => .calledESP (get_api_params st)
  | (_, some e) => .aborted e

/-- A minimal message that requests a template send. -/
def templateFixtureMessage : Message :=
  { from_emails := [⟨"from@example.com", ""⟩]
  , to_ := [⟨"to@example.com", ""⟩]
  , cc := []
  , bcc := []
  , mime_headers := [("Subject", .text "Subject")]
  , spoofed_to := false
  , envelope_sender := none
  , metadata := none
  , tags := none
  , template_id := some "welcome_template"
  , merge_data := none
  , merge_global_data := none
  , esp_extra := none }

/-- The payload state after the construction steps that precede metadata and
tags. -/
def prefixState (cfg : Option String) (m : Message) : AmazonSESPayloadState :=
  let s0 := init_payload cfg m.mime_headers
  let s1 := set_from_email_list s0 m.from_emails
  let s2 := set_recipients s1 m.to_
  let s3 := set_recipients s2 m.cc
  let s4 := set_recipients s3 m.bcc
  let s5 := if m.spoofed_to then set_spoofed_to_header s4 else s4
  match m.envelope_sender with
  | some e => set_envelope_sender s5 e
  | none => s5

end AmazonSES

/-- A concrete metadata/tags message for the C9 witness. -/
def sesMetadataFixture : AmazonSES.Message :=
  { from_emails := [⟨"from@example.com", ""⟩]
  , to_ := [⟨"to@example.com", ""⟩]
  , cc := []
  , bcc := []
  , mime_headers := [("Subject", .text "Subject")]
  , spoofed_to := false
  , envelope_sender := none
  , metadata := some [("user_id", "12345"), ("items", "horse-battery-staple")]
  , tags := some ["receipt", "repeat-user"]
  , template_id := none
  , merge_data := none
  , merge_global_data := none
  , esp_extra := none }

/-- A default Amazon SES message with no optional fields set. -/
def sesDefaultFixture : AmazonSES.Message :=
  { from_emails := [⟨"from@example.com", ""⟩]
  , to_ := [⟨"to@example.com", ""⟩]
  , cc := []
  , bcc := []
  , mime_headers := [("Subject", .text "Subject")]
  , spoofed_to := false
  , envelope_sender := none
  , metadata := none
  , tags := none
  , template_id := none
  , merge_data := none
  , merge_global_data := none
  , esp_extra := none }

/-- A default Mailjet message with no optional fields set. -/
def mjDefaultFixture : Mailjet.Message :=
  { from_email := ⟨"from@example.com", ""⟩
  , to_ := [⟨"to@example.com", ""⟩]
  , cc := []
  , bcc := []
  , subject := "Subject"
  , text_body := "Text Body"
  , html_body := none
  , reply_to := []
  , extra_headers := []
  , attachments := []
  , envelope_sender := none
  , metadata := none
  , tags := none
  , track_clicks := none
  , track_opens := none
  , template_id := none
  , merge_data := none
  , merge_global_data := none
  , esp_extra := none }

theorem dlookup_dset {α : Type u} (m : List (String × α)) (k : String) (v : α)
    (key : String) :
    dlookup (dset m k v) key = if k = key then some v else dlookup m key := by
  induction m with
  | nil => simp [dset, dlookup]
  | cons hd tl ih =>
    obtain ⟨k0, w⟩ := hd
    by_cases h0 : k0 = k
    · subst h0
      by_cases hk : k0 = key
      · subst hk
        simp [dset, dlookup]
      · simp [dset, dlookup, hk]
    · by_cases hk : k0 = key
      · subst hk
        have hne : k ≠ k0 := fun h => h0 h.symm
        simp [dset, dlookup, h0, hne]
      · simp [dset, dlookup, h0, hk, ih]

theorem dlookup_eq_none {α : Type u} (m : List (String × α)) (key : String) :
    dlookup m key = none ↔ ∀ p ∈ m, p.1 ≠ key := by
  induction m with
  | nil => simp [dlookup]
  | cons hd tl ih =>
    obtain ⟨k0, w⟩ := hd
    by_cases hk : k0 = key <;> simp [dlookup, hk, ih]

theorem dlookup_append {α : Type u} (m₁ m₂ : List (String × α)) (key : String) :
    dlookup (m₁ ++ m₂) key =
      match dlookup m₁ key with
      | some v => some v
      | none => dlookup m₂ key := by
  induction m₁ with
  | nil => simp [dlookup]
  | cons hd tl ih =>
    obtain ⟨k0, w⟩ := hd
    by_cases hk : k0 = key <;> simp [dlookup, hk, ih]

theorem mem_dset {α : Type u} (m : List (String × α)) (k : String) (v : α)
    (p : String × α) (hp : p ∈ dset m k v) : p ∈ m ∨ p = (k, v) := by
  induction m with
  | nil => simp [dset] at hp; simp [hp]
  | cons hd tl ih =>
    obtain ⟨k0, w⟩ := hd
    by_cases h0 : k0 = k
    · subst h0
      simp [dset] at hp
      rcases hp with h | h
      · right; simp [h]
      · left; simp [h]
    · simp [dset, h0] at hp
      rcases hp with h | h
      · left; simp [h]
      · rcases ih h with h2 | h2
        · left; simp [h2]
        · right; exact h2

theorem keys_dset {α : Type u} (m : List (String × α)) (k : String) (v : α) :
    (dset m k v).map Prod.fst =
      if dmem m k then m.map Prod.fst else m.map Prod.fst ++ [k] := by
  induction m with
  | nil => simp [dset, dmem, dlookup]
  | cons hd tl ih =>
    obtain ⟨k0, w⟩ := hd
    by_cases h0 : k0 = k
    · subst h0
      simp [dset, dmem, dlookup]
    · by_cases h1 : dmem tl k = true <;>
        simp [dset, dmem, dlookup, h0, ih, h1] at * <;> simp [h1]

theorem keys_dset_nodup {α : Type u} (m : List (String × α)) (k : String) (v : α)
    (h : (m.map Prod.fst).Nodup) : ((dset m k v).map Prod.fst).Nodup := by
  rw [keys_dset]
  by_cases h1 : dmem m k = true
  · simpa [h1] using h
  · have hnone : dlookup m k = none := by
      rcases ho : dlookup m k with _ | v0
      · rfl
      · exact absurd (by simp [dmem, ho]) h1
    have hk : k ∉ m.map Prod.fst := by
      rw [dlookup_eq_none] at hnone
      intro hmem
      rcases List.mem_map.mp hmem with ⟨p, hp, hpk⟩
      exact hnone p hp hpk
    simp [h1, List.nodup_append, h, hk]

theorem keys_dset_isSome {α : Type u} (m : List (String × α)) (k : String) (v : α)
    (key : String) :
    (dlookup (dset m k v) key).isSome = true ↔
      key = k ∨ (dlookup m key).isSome = true := by
  rw [dlookup_dset]
  by_cases hk : k = key
  · subst hk; simp
  · have hne : key ≠ k := fun h => hk h.symm
    simp [hk, hne]

namespace Mailjet

theorem insertRecipients_lookup_notmem (st : String) (rs : List ResponseRecipient)
    (acc : List (String × AnymailRecipientStatus)) (e : String)
    (h : ∀ r ∈ rs, r.Email ≠ e) :
    dlookup (insertRecipients st rs acc) e = dlookup acc e := by
  induction rs generalizing acc with
  | nil => rfl
  | cons r rest ih =>
    have hr : r.Email ≠ e := h r (by simp)
    rw [insertRecipients, ih _ (fun q hq => h q (by simp [hq])), dlookup_dset]
    simp [hr]

theorem insertRecipients_nodup (st : String) (rs : List ResponseRecipient)
    (acc : List (String × AnymailRecipientStatus))
    (h : (acc.map Prod.fst).Nodup) :
    ((insertRecipients st rs acc).map Prod.fst).Nodup := by
  induction rs generalizing acc with
  | nil => exact h
  | cons r rest ih => exact ih _ (keys_dset_nodup _ _ _ h)

theorem insertRecipients_isSome (st : String) (rs : List ResponseRecipient)
    (acc : List (String × AnymailRecipientStatus)) (e : String) :
    (dlookup (insertRecipients st rs acc) e).isSome = true ↔
      e ∈ rs.map (·.Email) ∨ (dlookup acc e).isSome = true := by
  induction rs generalizing acc with
  | nil => simp [insertRecipients]
  | cons r rest ih =>
    rw [insertRecipients, ih, keys_dset_isSome]
    simp only [List.map_cons, List.mem_cons]
    tauto

theorem insertRecipients_values (rs : List ResponseRecipient)
    (acc : List (String × AnymailRecipientStatus)) (e : String)
    (v : AnymailRecipientStatus)
    (h : dlookup (insertRecipients "sent" rs acc) e = some v) :
    (v.status = "sent" ∧ v.message_id ≠ none) ∨ dlookup acc e = some v := by
  induction rs generalizing acc with
  | nil => exact Or.inr h
  | cons r rest ih =>
    rw [insertRecipients] at h
    rcases ih _ h with h1 | h1
    · exact Or.inl h1
    · rw [dlookup_dset] at h1
      by_cases hr : r.Email = e
      · simp [hr] at h1
        left
        simp [← h1]
      · simp [hr] at h1
        exact Or.inr h1

theorem collectStatuses_lookup_notmem (msgs : List ResponseMessage)
    (acc : List (String × AnymailRecipientStatus)) (e : String)
    (h : ∀ msg ∈ msgs, ∀ r ∈ messageRecipients msg, r.Email ≠ e) :
    dlookup (collectStatuses msgs acc) e = dlookup acc e := by
  induction msgs generalizing acc with
  | nil => rfl
  | cons msg rest ih =>
    rw [collectStatuses, ih _ (fun q hq => h q (by simp [hq])),
      insertRecipients_lookup_notmem _ _ _ _ (h msg (by simp))]

theorem collectStatuses_nodup (msgs : List ResponseMessage)
    (acc : List (String × AnymailRecipientStatus))
    (h : (acc.map Prod.fst).Nodup) :
    ((collectStatuses msgs acc).map Prod.fst).Nodup := by
  induction msgs generalizing acc with
  | nil => exact h
  | cons msg rest ih => exact ih _ (insertRecipients_nodup _ _ _ h)

theorem collectStatuses_isSome (msgs : List ResponseMessage)
    (acc : List (String × AnymailRecipientStatus)) (e : String) :
    (dlookup (collectStatuses msgs acc) e).isSome = true ↔
      e ∈ reportedEmails msgs ∨ (dlookup acc e).isSome = true := by
  induction msgs generalizing acc with
  | nil => simp [collectStatuses, reportedEmails]
  | cons msg rest ih =>
    rw [collectStatuses, ih, insertRecipients_isSome]
    simp only [reportedEmails, List.mem_append]
    tauto

theorem collectStatuses_values (msgs : List ResponseMessage)
    (acc : List (String × AnymailRecipientStatus)) (e : String)
    (v : AnymailRecipientStatus)
    (hsucc : ∀ msg ∈ msgs, msg.Status = "success")
    (h : dlookup (collectStatuses msgs acc) e = some v) :
    (v.status = "sent" ∧ v.message_id ≠ none) ∨ dlookup acc e = some v := by
  induction msgs generalizing acc with
  | nil => exact Or.inr h
  | cons msg rest ih =>
    rw [collectStatuses] at h
    rcases ih _ (fun q hq => hsucc q (by simp [hq])) h with h1 | h1
    · exact Or.inl h1
    · rw [hsucc msg (by simp)] at h1
      simpa using insertRecipients_values _ _ _ _ h1

theorem fillMissing_preserves (rs : List String)
    (acc : List (String × AnymailRecipientStatus)) (e : String)
    (v : AnymailRecipientStatus) (h : dlookup acc e = some v) :
    dlookup (fillMissing rs acc) e = some v := by
  induction rs generalizing acc with
  | nil => exact h
  | cons r rest ih =>
    rw [fillMissing]
    by_cases hr : dmem acc r = true
    · simp [hr]
      exact ih _ h
    · simp [hr]
      exact ih _ (by rw [dlookup_append, h])

theorem fillMissing_lookup_missing (rs : List String)
    (acc : List (String × AnymailRecipientStatus)) (e : String)
    (he : e ∈ rs) (h : dlookup acc e = none) :
    dlookup (fillMissing rs acc) e = some ⟨none, "failed"⟩ := by
  induction rs generalizing acc with
  | nil => simp at he
  | cons r rest ih =>
    rw [fillMissing]
    by_cases hre : r = e
    · subst hre
      have hm : dmem acc r = false := by simp [dmem, h]
      simp [hm]
      exact fillMissing_preserves _ _ _ _ (by rw [dlookup_append, h]; simp [dlookup])
    · have he2 : e ∈ rest := by
        rcases List.mem_cons.mp he with h1 | h1
        · exact absurd h1.symm hre
        · exact h1
      by_cases hr : dmem acc r = true
      · simp [hr]
        exact ih _ he2 h
      · simp [hr]
        exact ih _ he2 (by rw [dlookup_append, h]; simp [dlookup, hre])

theorem fillMissing_nodup (rs : List String)
    (acc : List (String × AnymailRecipientStatus))
    (h : (acc.map Prod.fst).Nodup) :
    ((fillMissing rs acc).map Prod.fst).Nodup := by
  induction rs generalizing acc with
  | nil => exact h
  | cons r rest ih =>
    rw [fillMissing]
    by_cases hr : dmem acc r = true
    · simp [hr]
      exact ih _ h
    · simp [hr]
      refine ih _ ?_
      have hnone : dlookup acc r = none := by
        rcases ho : dlookup acc r with _ | v0
        · rfl
        · exact absurd (by simp [dmem, ho]) hr
      have hk : r ∉ acc.map Prod.fst := by
        rw [dlookup_eq_none] at hnone
        intro hmem
        rcases List.mem_map.mp hmem with ⟨p, hp, hpk⟩
        exact hnone p hp hpk
      simp [List.nodup_append, h, hk]

theorem fillMissing_all_present (rs : List String)
    (acc : List (String × AnymailRecipientStatus))
    (h : ∀ e ∈ rs, (dlookup acc e).isSome = true) :
    fillMissing rs acc = acc := by
  induction rs with
  | nil => rfl
  | cons r rest ih =>
    rw [fillMissing]
    have hr : dmem acc r = true := by simpa [dmem] using h r (by simp)
    simp [hr]
    exact ih (fun e he => h e (by simp [he]))

end Mailjet

namespace AmazonSES

theorem statusDict_lookup (mid : String) (rs : List String)
    (acc : List (String × AnymailRecipientStatus)) (e : String) :
    dlookup (statusDict mid rs acc) e =
      if e ∈ rs then some ⟨some mid, "queued"⟩ else dlookup acc e := by
  induction rs generalizing acc with
  | nil => simp [statusDict]
  | cons r rest ih =>
    rw [statusDict, ih, dlookup_dset]
    by_cases he : e ∈ rest
    · simp [he]
    · by_cases hr : r = e
      · subst hr
        simp [he]
      · have hne : e ≠ r := fun h => hr h.symm
        simp [he, hr, hne]

theorem statusDict_nodup (mid : String) (rs : List String)
    (acc : List (String × AnymailRecipientStatus))
    (h : (acc.map Prod.fst).Nodup) :
    ((statusDict mid rs acc).map Prod.fst).Nodup := by
  induction rs generalizing acc with
  | nil => exact h
  | cons r rest ih => exact ih _ (keys_dset_nodup _ _ _ h)

end AmazonSES

/-- C2: for a Mailjet batch send whose response has HTTP status 400-499 and a
parseable `Messages` list with no global `ErrorCode`, every addressed recipient
absent from the per-recipient results is reported `failed` with a null message
id, and no recipient appears twice in the returned mapping. -/
theorem mailjet_partial_failure_defaults_unreported_to_failed
    (statusCode : Nat) (resp : Mailjet.Response) (recips : List String)
    (hcode : 400 ≤ statusCode ∧ statusCode ≤ 499)
    (herr : resp.ErrorCode = none) :
    ∃ m, Mailjet.sendResult statusCode resp recips = .ok m ∧
      (∀ e ∈ recips,
        (∀ msg ∈ resp.Messages, ∀ r ∈ Mailjet.messageRecipients msg, r.Email ≠ e) →
        dlookup m e = some ⟨none, "failed"⟩) ∧
      (m.map Prod.fst).Nodup := by
  refine ⟨Mailjet.fillMissing recips (Mailjet.collectStatuses resp.Messages []),
    ?_, ?_, ?_⟩
  · rw [Mailjet.sendResult, if_pos (Or.inl hcode), Mailjet.parse_recipient_status,
      herr]
    rfl
  · intro e he hunrep
    refine Mailjet.fillMissing_lookup_missing _ _ _ he ?_
    rw [Mailjet.collectStatuses_lookup_notmem _ _ _ hunrep]
    rfl
  · exact Mailjet.fillMissing_nodup _ _ (Mailjet.collectStatuses_nodup _ _ (by simp))

/-- Witness for C2: a concrete 4xx partial-failure response reporting only
`bob@example.com` marks the unreported `alice@example.com` as failed. -/
theorem mailjet_partial_failure_defaults_unreported_to_failed_witness :
    (400 ≤ 400 ∧ 400 ≤ 499) ∧
    (Mailjet.Response.mk none
        [⟨"error", [], [], []⟩, ⟨"success", [⟨"bob@example.com", 7⟩], [], []⟩]).ErrorCode
      = none ∧
    ∃ m, Mailjet.sendResult 400
        (Mailjet.Response.mk none
          [⟨"error", [], [], []⟩, ⟨"success", [⟨"bob@example.com", 7⟩], [], []⟩])
        ["alice@example.com", "bob@example.com"] = .ok m ∧
      (∀ e ∈ ["alice@example.com", "bob@example.com"],
        (∀ msg ∈ (Mailjet.Response.mk none
            [⟨"error", [], [], []⟩,
             ⟨"success", [⟨"bob@example.com", 7⟩], [], []⟩]).Messages,
          ∀ r ∈ Mailjet.messageRecipients msg, r.Email ≠ e) →
        dlookup m e = some ⟨none, "failed"⟩) ∧
      (m.map Prod.fst).Nodup :=
  ⟨⟨by decide, by decide⟩, rfl,
    mailjet_partial_failure_defaults_unreported_to_failed 400 _ _
      ⟨by decide, by decide⟩ rfl⟩

/-- C3: when the ESP accepts every recipient (Amazon SES: a response carrying a
`MessageId`; Mailjet: exactly the addressed recipients reported, all with
`Status` success), the returned status mapping contains exactly the addressed
recipients, each with a non-null message id, and no duplicates. -/
theorem all_accepted_maps_every_recipient_with_message_id :
    (∀ (resp : AmazonSES.Response) (mid : String) (recips : List String),
      resp.MessageId = some mid →
      ∃ m, AmazonSES.parse_recipient_status resp recips = .ok m ∧
        (∀ e, dlookup m e =
          if e ∈ recips then some ⟨some mid, "queued"⟩ else none) ∧
        (m.map Prod.fst).Nodup) ∧
    (∀ (resp : Mailjet.Response) (recips : List String),
      resp.ErrorCode = none →
      (∀ msg ∈ resp.Messages, msg.Status = "success") →
      (∀ e, e ∈ Mailjet.reportedEmails resp.Messages ↔ e ∈ recips) →
      ∃ m, Mailjet.parse_recipient_status resp recips = .ok m ∧
        (∀ e, (dlookup m e).isSome = true ↔ e ∈ recips) ∧
        (∀ e v, dlookup m e = some v → v.status = "sent" ∧ v.message_id ≠ none) ∧
        (m.map Prod.fst).Nodup) := by
  constructor
  · intro resp mid recips hmid
    refine ⟨AmazonSES.statusDict mid recips [], ?_, ?_, ?_⟩
    · rw [AmazonSES.parse_recipient_status, hmid]
    · intro e
      rw [AmazonSES.statusDict_lookup]
      by_cases he : e ∈ recips <;> simp [he, dlookup]
    · exact AmazonSES.statusDict_nodup _ _ _ (by simp)
  · intro resp recips herr hsucc hiff
    have hpresent : ∀ e ∈ recips,
        (dlookup (Mailjet.collectStatuses resp.Messages []) e).isSome = true := by
      intro e he
      rw [Mailjet.collectStatuses_isSome]
      exact Or.inl ((hiff e).mpr he)
    refine ⟨Mailjet.collectStatuses resp.Messages [], ?_, ?_, ?_, ?_⟩
    · rw [Mailjet.parse_recipient_status, herr]
      simp [Mailjet.fillMissing_all_present _ _ hpresent]
    · intro e
      rw [Mailjet.collectStatuses_isSome]
      simp [dlookup, hiff e]
    · intro e v hv
      rcases Mailjet.collectStatuses_values _ _ _ _ hsucc hv with h1 | h1
      · exact h1
      · simp [dlookup] at h1
    · exact Mailjet.collectStatuses_nodup _ _ (by simp)

/-- Witness for C3: a concrete all-success send for both backends. -/
theorem all_accepted_maps_every_recipient_with_message_id_witness :
    ((AmazonSES.Response.mk (some "mid-1")).MessageId = some "mid-1" ∧
      ∃ m, AmazonSES.parse_recipient_status (AmazonSES.Response.mk (some "mid-1"))
          ["a@x.com", "b@x.com"] = .ok m ∧
        (∀ e, dlookup m e =
          if e ∈ ["a@x.com", "b@x.com"] then some ⟨some "mid-1", "queued"⟩ else none) ∧
        (m.map Prod.fst).Nodup) ∧
    ∃ m, Mailjet.parse_recipient_status
        (Mailjet.Response.mk none [⟨"success", [⟨"a@x.com", 3⟩], [⟨"b@x.com", 4⟩], []⟩])
        ["a@x.com", "b@x.com"] = .ok m ∧
      (∀ e, (dlookup m e).isSome = true ↔ e ∈ ["a@x.com", "b@x.com"]) ∧
      (∀ e v, dlookup m e = some v → v.status = "sent" ∧ v.message_id ≠ none) ∧
      (m.map Prod.fst).Nodup :=
  ⟨⟨rfl, all_accepted_maps_every_recipient_with_message_id.1 _ "mid-1" _ rfl⟩,
    all_accepted_maps_every_recipient_with_message_id.2
      (Mailjet.Response.mk none
        [⟨"success", [⟨"a@x.com", 3⟩], [⟨"b@x.com", 4⟩], []⟩])
      ["a@x.com", "b@x.com"] rfl (by decide)
      (by intro e; simp [Mailjet.reportedEmails, Mailjet.messageRecipients])⟩

namespace AmazonSES

theorem ws_not_allowed (c : Char) (h : isPyWhitespace c = true) :
    isTagAllowed c = false := by
  simp [isPyWhitespace] at h
  rcases h with (((((h | h) | h) | h) | h) | h) <;> subst h <;> decide

theorem allowed_not_ws (c : Char) (h : isTagAllowed c = true) :
    isPyWhitespace c = false := by
  cases hw : isPyWhitespace c
  · rfl
  · rw [ws_not_allowed c hw] at h
    exact absurd h (by simp)

theorem mem_subRunsAux (p : Char → Bool) (rep : Char) (b : Bool) (l : List Char)
    (c : Char) (hc : c ∈ subRunsAux p rep b l) :
    c = rep ∨ (c ∈ l ∧ p c = false) := by
  induction l generalizing b with
  | nil => simp [subRunsAux] at hc
  | cons x xs ih =>
    by_cases hx : p x = true
    · cases b with
      | true =>
        simp [subRunsAux, hx] at hc
        rcases ih _ hc with h | h
        · exact Or.inl h
        · exact Or.inr ⟨by simp [h.1], h.2⟩
      | false =>
        simp [subRunsAux, hx] at hc
        rcases hc with h | h
        · exact Or.inl h
        · rcases ih _ h with h2 | h2
          · exact Or.inl h2
          · exact Or.inr ⟨by simp [h2.1], h2.2⟩
    · simp [subRunsAux, hx] at hc
      rcases hc with h | h
      · subst h
        exact Or.inr ⟨by simp, by simpa using hx⟩
      · rcases ih _ h with h2 | h2
        · exact Or.inl h2
        · exact Or.inr ⟨by simp [h2.1], h2.2⟩

theorem subRunsAux_id (p : Char → Bool) (rep : Char) (b : Bool) (l : List Char)
    (h : ∀ c ∈ l, p c = false) : subRunsAux p rep b l = l := by
  induction l generalizing b with
  | nil => rfl
  | cons x xs ih =>
    have hx : p x = false := h x (by simp)
    simp [subRunsAux, hx]
    exact ih _ (fun c hc => h c (by simp [hc]))

theorem subRunsAux_append_notp (p : Char → Bool) (rep : Char)
    (u l : List Char) (hu : ∀ c ∈ u, p c = false) :
    subRunsAux p rep false (u ++ l) = u ++ subRunsAux p rep false l := by
  induction u with
  | nil => rfl
  | cons x xs ih =>
    have hx : p x = false := hu x (by simp)
    simp [subRunsAux, hx]
    exact ih (fun c hc => hu c (by simp [hc]))

theorem subRunsAux_true_append (p : Char → Bool) (rep : Char)
    (w l : List Char) (hw : ∀ c ∈ w, p c = true) :
    subRunsAux p rep true (w ++ l) = subRunsAux p rep true l := by
  induction w with
  | nil => rfl
  | cons x xs ih =>
    have hx : p x = true := hw x (by simp)
    simp [subRunsAux, hx]
    exact ih (fun c hc => hw c (by simp [hc]))

theorem subRunsAux_run_collapse (p : Char → Bool) (rep : Char)
    (w l : List Char) (hne : w ≠ []) (hw : ∀ c ∈ w, p c = true) :
    subRunsAux p rep false (w ++ l) = rep :: subRunsAux p rep true l := by
  cases w with
  | nil => exact absurd rfl hne
  | cons x xs =>
    have hx : p x = true := hw x (by simp)
    simp [subRunsAux, hx]
    exact subRunsAux_true_append p rep xs l (fun c hc => hw c (by simp [hc]))

theorem subRunsAux_true_of_head (p : Char → Bool) (rep : Char) (l : List Char)
    (hl : ∀ c, l.head? = some c → p c = false) :
    subRunsAux p rep true l = subRunsAux p rep false l := by
  cases l with
  | nil => rfl
  | cons x xs =>
    have hx : p x = false := hl x rfl
    simp [subRunsAux, hx]

theorem cleanChars_all_allowed (l : List Char) :
    ∀ c ∈ cleanChars l, isTagAllowed c = true := by
  intro c hc
  rcases mem_subRunsAux _ _ _ _ c hc with h | h
  · subst h
    decide
  · simpa using h.2

theorem cleanChars_id_of_allowed (l : List Char)
    (h : ∀ c ∈ l, isTagAllowed c = true) : cleanChars l = l := by
  unfold cleanChars subRuns
  rw [subRunsAux_id _ _ _ l (fun c hc => allowed_not_ws c (h c hc))]
  exact subRunsAux_id _ _ _ l (fun c hc => by simp [h c hc])

theorem cleanChars_idem (l : List Char) :
    cleanChars (cleanChars l) = cleanChars l :=
  cleanChars_id_of_allowed _ (cleanChars_all_allowed l)

theorem head_subRuns_ws_allowed (v : List Char)
    (hv : ∀ c, v.head? = some c → isPyWhitespace c = true ∨ isTagAllowed c = true) :
    ∀ c, (subRuns isPyWhitespace '_' v).head? = some c → isTagAllowed c = true := by
  intro c hc
  cases v with
  | nil => simp [subRuns, subRunsAux] at hc
  | cons x xs =>
    by_cases hx : isPyWhitespace x = true
    · simp [subRuns, subRunsAux, hx] at hc
      subst hc
      decide
    · rcases hv x rfl with h | h
      · exact absurd h hx
      · simp [subRuns, subRunsAux, hx] at hc
        subst hc
        exact h

theorem cleanChars_ws_run (u w v : List Char)
    (hu : ∀ c ∈ u, isTagAllowed c = true) (hne : w ≠ [])
    (hw : ∀ c ∈ w, isPyWhitespace c = true)
    (hv : ∀ c, v.head? = some c → isPyWhitespace c = false) :
    cleanChars (u ++ w ++ v) = u ++ '_' :: cleanChars v := by
  unfold cleanChars subRuns
  rw [List.append_assoc,
    subRunsAux_append_notp _ _ u (w ++ v) (fun c hc => allowed_not_ws c (hu c hc)),
    subRunsAux_run_collapse _ _ w v hne hw,
    subRunsAux_true_of_head _ _ v hv,
    show u ++ '_' :: subRunsAux isPyWhitespace '_' false v
        = (u ++ ['_']) ++ subRunsAux isPyWhitespace '_' false v by simp,
    subRunsAux_append_notp _ _ (u ++ ['_']) _ ?_]
  · simp
  · intro c hc
    rcases List.mem_append.mp hc with h | h
    · simp [hu c h]
    · simp at h
      subst h
      decide

theorem cleanChars_other_run (u w v : List Char)
    (hu : ∀ c ∈ u, isTagAllowed c = true) (hne : w ≠ [])
    (hw : ∀ c ∈ w, isPyWhitespace c = false ∧ isTagAllowed c = false)
    (hv : ∀ c, v.head? = some c → isPyWhitespace c = true ∨ isTagAllowed c = true) :
    cleanChars (u ++ w ++ v) = u ++ '-' :: cleanChars v := by
  unfold cleanChars subRuns
  rw [List.append_assoc,
    subRunsAux_append_notp _ _ u (w ++ v) (fun c hc => allowed_not_ws c (hu c hc)),
    subRunsAux_append_notp _ _ w _ (fun c hc => (hw c hc).1),
    subRunsAux_append_notp _ _ u _ (fun c hc => by simp [hu c hc]),
    subRunsAux_run_collapse _ '-' w _ hne (fun c hc => by simp [(hw c hc).2]),
    subRunsAux_true_of_head _ '-' _
      (fun c hc => by simp [head_subRuns_ws_allowed v hv c hc])]

end AmazonSES

/-- C6: `_clean_tag` is idempotent, leaves strings of allowed characters
(A-Z, a-z, 0-9, hyphen, underscore) unchanged, collapses each maximal
whitespace run to a single underscore and each maximal run of other
disallowed characters to a single hyphen, and maps " a,b " to "_a-b_". -/
theorem amazon_ses_clean_tag_algebra :
    (∀ s, AmazonSES._clean_tag (AmazonSES._clean_tag s) = AmazonSES._clean_tag s) ∧
    (∀ s : String, (∀ c ∈ s.data, AmazonSES.isTagAllowed c = true) →
      AmazonSES._clean_tag s = s) ∧
    (∀ u w v : List Char, (∀ c ∈ u, AmazonSES.isTagAllowed c = true) → w ≠ [] →
      (∀ c ∈ w, AmazonSES.isPyWhitespace c = true) →
      (∀ c, v.head? = some c → AmazonSES.isPyWhitespace c = false) →
      AmazonSES.cleanChars (u ++ w ++ v) = u ++ '_' :: AmazonSES.cleanChars v) ∧
    (∀ u w v : List Char, (∀ c ∈ u, AmazonSES.isTagAllowed c = true) → w ≠ [] →
      (∀ c ∈ w, AmazonSES.isPyWhitespace c = false ∧ AmazonSES.isTagAllowed c = false) →
      (∀ c, v.head? = some c →
        AmazonSES.isPyWhitespace c = true ∨ AmazonSES.isTagAllowed c = true) →
      AmazonSES.cleanChars (u ++ w ++ v) = u ++ '-' :: AmazonSES.cleanChars v) ∧
    AmazonSES._clean_tag " a,b " = "_a-b_" := by
  refine ⟨?_, ?_, AmazonSES.cleanChars_ws_run, AmazonSES.cleanChars_other_run,
    by decide⟩
  · intro s
    show String.mk (AmazonSES.cleanChars (AmazonSES.cleanChars s.data))
        = String.mk (AmazonSES.cleanChars s.data)
    rw [AmazonSES.cleanChars_idem]
  · intro s h
    show String.mk (AmazonSES.cleanChars s.data) = s
    rw [AmazonSES.cleanChars_id_of_allowed s.data h]

/-- Witness for C6: concrete run collapses around " " and ",". -/
theorem amazon_ses_clean_tag_algebra_witness :
    ((∀ c ∈ ['a'], AmazonSES.isTagAllowed c = true) ∧ ([' '] ≠ ([] : List Char)) ∧
      (∀ c ∈ [' '], AmazonSES.isPyWhitespace c = true) ∧
      AmazonSES.cleanChars (['a'] ++ [' '] ++ ['b'])
        = ['a'] ++ '_' :: AmazonSES.cleanChars ['b']) ∧
    ((∀ c ∈ [','],
        AmazonSES.isPyWhitespace c = false ∧ AmazonSES.isTagAllowed c = false) ∧
      AmazonSES.cleanChars (['a'] ++ [','] ++ ['b'])
        = ['a'] ++ '-' :: AmazonSES.cleanChars ['b']) :=
  ⟨⟨by decide, by decide, by decide,
    amazon_ses_clean_tag_algebra.2.2.1 ['a'] [' '] ['b'] (by decide) (by decide)
      (by decide) (by intro c hc; simp at hc; subst hc; decide)⟩,
   ⟨by decide,
    amazon_ses_clean_tag_algebra.2.2.2.1 ['a'] [','] ['b'] (by decide) (by decide)
      (by decide) (by intro c hc; simp at hc; subst hc; right; decide)⟩⟩

theorem string_data_append (a b : String) : (a ++ b).data = a.data ++ b.data := rfl

/-- C1 (code bug): on the test suite's own bounce fixture — an SNS Notification
whose Message is a bounce event with one bounced recipient — the tracking
webhook's `esp_to_anymail_events` is a `return []` stub, so parsing yields zero
events where the claim (and `test_bounce_event`) requires exactly one `bounced`
event for the bounced recipient. -/
theorem amazon_ses_bounce_fixture_yields_no_events :
    AmazonSES.parse_events true true AmazonSES.bounceFixtureSns
      = .ok ([] : List AmazonSES.TrackingEvent) ∧
    (AmazonSES.bounceFixtureEvent.bounce.map
      (fun b => b.bouncedRecipients.length)).getD 0 = 1 :=
  ⟨rfl, rfl⟩

/-- C4 counterexample: with the auto-confirm setting disabled
(`ANYMAIL_AMAZON_SES_AUTO_CONFIRM_SNS_SUBSCRIPTIONS=False`) and no shared
secret configured, a SubscriptionConfirmation request neither fetches the
SubscribeURL nor fails validation — the request succeeds with zero events —
contradicting the claim that validation fails whenever no shared secret is
configured. -/
theorem sns_confirm_no_secret_counterexample :
    (AmazonSES.auto_confirm_sns_subscription false false
        AmazonSES.confirmFixtureSns).isFail = false ∧
    AmazonSES.parse_events false false AmazonSES.confirmFixtureSns
      = .ok ([] : List AmazonSES.TrackingEvent) :=
  ⟨rfl, rfl⟩

/-- C4 (amended): a fetch of the SubscribeURL occurs only if basic auth (the
shared webhook secret) is configured — in which case the request has already
been authenticated — and, when auto-confirmation is enabled (the default) but
no shared secret is configured, validation fails with a message reporting the
manual-confirmation token and no fetch occurs. -/
theorem sns_confirm_fetch_only_if_authenticated
    (enabled auth : Bool) (msg : AmazonSES.SnsMessage) :
    ((AmazonSES.auto_confirm_sns_subscription enabled auth msg).isFetch = true →
      auth = true) ∧
    (enabled = true → auth = false →
      AmazonSES.auto_confirm_sns_subscription enabled auth msg
          = .failed (AmazonSES.confirmFailureText msg) ∧
        (∃ pre post : List Char,
          (AmazonSES.confirmFailureText msg).data
            = pre ++ (AmazonSES.pyStr msg.token).data ++ post) ∧
        (AmazonSES.auto_confirm_sns_subscription enabled auth msg).isFetch = false) := by
  constructor
  · cases enabled <;> cases auth <;>
      simp [AmazonSES.auto_confirm_sns_subscription, AmazonSES.SnsConfirmAction.isFetch]
  · intro he ha
    subst he
    subst ha
    refine ⟨rfl,
      ⟨("Anymail received an unexpected SubscriptionConfirmation request for Amazon SNS topic \x27"
          ++ AmazonSES.pyStr msg.topicArn
          ++ "\x27. (Anymail can automatically confirm SNS subscriptions if you set a WEBHOOK_SECRET and use that in your SNS notification url. Or you can manually confirm this subscription in the SNS dashboard with token \x27").data,
        ("\x27.)" : String).data, ?_⟩, rfl⟩
    unfold AmazonSES.confirmFailureText
    rw [string_data_append, string_data_append]

/-- Witness for C4 (amended) at the repository's SubscriptionConfirmation
fixture with auto-confirm enabled and no shared secret. -/
theorem sns_confirm_fetch_only_if_authenticated_witness :
    ((AmazonSES.auto_confirm_sns_subscription true false
        AmazonSES.confirmFixtureSns).isFetch = true → false = true) ∧
    (true = true → false = false →
      AmazonSES.auto_confirm_sns_subscription true false AmazonSES.confirmFixtureSns
          = .failed (AmazonSES.confirmFailureText AmazonSES.confirmFixtureSns) ∧
        (∃ pre post : List Char,
          (AmazonSES.confirmFailureText AmazonSES.confirmFixtureSns).data
            = pre ++ (AmazonSES.pyStr AmazonSES.confirmFixtureSns.token).data ++ post) ∧
        (AmazonSES.auto_confirm_sns_subscription true false
            AmazonSES.confirmFixtureSns).isFetch = false) :=
  sns_confirm_fetch_only_if_authenticated true false AmazonSES.confirmFixtureSns

/-- C10: the Mailjet reply-to and tags setters are not atomic on error — with
more than one reply-to address or tag they raise UnsupportedFeature, but the
first address (as "ReplyTo") / first tag (as "CustomCampaign") has already
been written into the wire data. -/
theorem mailjet_set_reply_to_and_tags_not_atomic
    (st : Mailjet.MailjetPayloadState) (e1 e2 : EmailAddress)
    (erest : List EmailAddress) (t1 t2 : String) (trest : List String) :
    ((Mailjet.set_reply_to st (e1 :: e2 :: erest)).2
        = some "Multiple reply_to addresses" ∧
      dlookup (Mailjet.set_reply_to st (e1 :: e2 :: erest)).1.body "ReplyTo"
        = some (.emailObj (Mailjet._mailjet_email e1))) ∧
    ((Mailjet.set_tags st (t1 :: t2 :: trest)).2
        = some ("multiple tags ("
            ++ Mailjet.pyReprStrList (t1 :: t2 :: trest) ++ ")") ∧
      dlookup (Mailjet.set_tags st (t1 :: t2 :: trest)).1.body "CustomCampaign"
        = some (.str t1)) := by
  refine ⟨⟨?_, ?_⟩, ?_, ?_⟩ <;>
    simp [Mailjet.set_reply_to, Mailjet.set_tags, dlookup_dset]

theorem pyUpdate_cons {α : Type u} (base : List (String × α)) (q : String × α)
    (rest : List (String × α)) :
    pyUpdate base (q :: rest) = pyUpdate (dset base q.1 q.2) rest := rfl

theorem dlookup_mem {α : Type u} (m : List (String × α)) (k : String) (v : α)
    (h : dlookup m k = some v) : (k, v) ∈ m := by
  induction m with
  | nil => simp [dlookup] at h
  | cons q rest ih =>
    obtain ⟨k0, w⟩ := q
    by_cases hk : k0 = k
    · subst hk
      simp [dlookup] at h
      simp [h]
    · simp [dlookup, hk] at h
      simp [ih h]

theorem dlookup_pyUpdate {α : Type u} (base ov : List (String × α)) (k : String)
    (hov : (ov.map Prod.fst).Nodup) :
    dlookup (pyUpdate base ov) k =
      match dlookup ov k with
      | some v => some v
      | none => dlookup base k := by
  induction ov generalizing base with
  | nil => simp [pyUpdate, dlookup]
  | cons q rest ih =>
    obtain ⟨k0, v0⟩ := q
    rw [pyUpdate_cons]
    simp only [List.map_cons, List.nodup_cons] at hov
    rw [ih _ hov.2]
    by_cases hk : k0 = k
    · subst hk
      have hrest : dlookup rest k0 = none := by
        rw [dlookup_eq_none]
        intro p hp heq
        exact hov.1 (List.mem_map.mpr ⟨p, hp, heq⟩)
      simp [hrest, dlookup, dlookup_dset]
    · cases hr : dlookup rest k <;> simp [dlookup, hk, hr, dlookup_dset]

theorem mem_pyUpdate {α : Type u} (base ov : List (String × α)) (p : String × α)
    (hp : p ∈ pyUpdate base ov) : p ∈ base ∨ p ∈ ov := by
  induction ov generalizing base with
  | nil => exact Or.inl hp
  | cons q rest ih =>
    rw [pyUpdate_cons] at hp
    rcases ih _ hp with h | h
    · rcases mem_dset _ _ _ _ h with h2 | h2
      · exact Or.inl h2
      · right
        simp [h2]
    · right
      simp [h]

theorem pyUpdate_keys_nodup {α : Type u} (base ov : List (String × α))
    (h : (base.map Prod.fst).Nodup) :
    ((pyUpdate base ov).map Prod.fst).Nodup := by
  induction ov generalizing base with
  | nil => exact h
  | cons q rest ih =>
    rw [pyUpdate_cons]
    exact ih _ (keys_dset_nodup _ _ _ h)

theorem dlookup_dremove_ne {α : Type u} (m : List (String × α)) (k key : String)
    (h : key ≠ k) : dlookup (dremove m k) key = dlookup m key := by
  induction m with
  | nil => rfl
  | cons q rest ih =>
    obtain ⟨k0, w⟩ := q
    by_cases h0 : k0 = k
    · subst h0
      have h2 : k0 ≠ key := fun hc => h hc.symm
      simp [dremove, dlookup, h2]
    · by_cases hkey : k0 = key
      · subst hkey
        simp [dremove, dlookup, h0]
      · simp [dremove, dlookup, h0, hkey, ih]

theorem dremove_of_notmem {α : Type u} (m : List (String × α)) (k : String)
    (h : dlookup m k = none) : dremove m k = m := by
  induction m with
  | nil => rfl
  | cons q rest ih =>
    obtain ⟨k0, w⟩ := q
    by_cases h0 : k0 = k
    · subst h0
      simp [dlookup] at h
    · simp [dlookup, h0] at h
      simp [dremove, h0, ih h]

namespace Mailjet

theorem nonNull_iff (x : JVal) : nonNull x = true ↔ x ≠ JVal.null := by
  cases x <;> simp [nonNull]

theorem mem_strip_none (v : List (String × JVal)) (p : String × JVal) :
    p ∈ _strip_none v ↔ p ∈ v ∧ p.2 ≠ JVal.null := by
  simp [_strip_none, List.mem_filter, nonNull_iff]

theorem dlookup_strip_none (v : List (String × JVal)) (k : String)
    (h : (v.map Prod.fst).Nodup) :
    dlookup (_strip_none v) k = stripVal (dlookup v k) := by
  induction v with
  | nil => simp [_strip_none, dlookup, stripVal]
  | cons q rest ih =>
    obtain ⟨k0, x0⟩ := q
    simp only [List.map_cons, List.nodup_cons] at h
    by_cases hk : k0 = k
    · subst hk
      have hrest : dlookup rest k0 = none := by
        rw [dlookup_eq_none]
        intro p hp heq
        exact h.1 (List.mem_map.mpr ⟨p, hp, heq⟩)
      by_cases hx : x0 = JVal.null
      · subst hx
        have hstr : dlookup (_strip_none rest) k0 = stripVal (dlookup rest k0) :=
          ih h.2
        rw [hrest] at hstr
        simp [_strip_none, nonNull, dlookup, stripVal]
        simpa [stripVal] using hstr
      · have hnn : nonNull x0 = true := (nonNull_iff x0).mpr hx
        simp [_strip_none, hnn, dlookup, stripVal, hx]
    · have hrec := ih h.2
      by_cases hnn : nonNull x0 = true <;>
        simp [_strip_none, hnn, dlookup, hk] at hrec ⊢ <;>
        exact hrec

theorem expand_entry_characterization
    (body : List (String × MJVal)) (md : List (String × List (String × JVal)))
    (hvars : dlookup body "Variables" = none ∨
      dlookup body "Variables" = some (.varsObj (globalVars body)))
    (hgv : ((globalVars body).map Prod.fst).Nodup)
    (hgvnull : ∀ p ∈ globalVars body, p.2 ≠ JVal.null)
    (hmd : ∀ q ∈ md, (q.2.map Prod.fst).Nodup)
    (i : Nat) (d : List (String × MJVal))
    (hd : (_expand_merge_data body md)[i]? = some d) :
    ∃ toItem, (toRecipients body)[i]? = some toItem ∧
      dlookup d "To" = some (.emailList [toItem]) ∧
      (∀ k, k ≠ "To" → k ≠ "Variables" → dlookup d k = dlookup body k) ∧
      ∃ vs, dlookup d "Variables" = some (.varsObj vs) ∧
        (∀ p ∈ vs, p.2 ≠ JVal.null) ∧
        (∀ p ∈ vs, p ∈ globalVars body ∨
          ∃ mvars, dlookup md toItem.Email = some mvars ∧ p ∈ mvars) ∧
        (∀ mvars, dlookup md toItem.Email = some mvars →
          ∀ k, dlookup vs k =
            stripVal (match dlookup mvars k with
              | some x => some x
              | none => dlookup (globalVars body) k)) := by
  have hVT : ("Variables" : String) ≠ "To" := by decide
  have hTV : ("To" : String) ≠ "Variables" := by decide
  set body0 : List (String × MJVal) :=
    if dmem body "Variables" then body else dset body "Variables" (.varsObj [])
    with hbody0
  set base : List (String × MJVal) := dremove body0 "To" with hbase
  have hTo0 : dlookup body0 "To" = dlookup body "To" := by
    rw [hbody0]
    by_cases hv : dmem body "Variables" = true
    · simp [hv]
    · simp [hv, dlookup_dset, hTV]
  have htos : toRecipients body0 = toRecipients body := by
    unfold toRecipients
    rw [hTo0]
  have hD : dlookup body0 "Variables" = some (.varsObj (globalVars body)) := by
    rw [hbody0]
    by_cases hv : dmem body "Variables" = true
    · simp only [hv, if_pos]
      rcases hvars with h | h
      · rw [dmem, h] at hv
        simp at hv
      · exact h
    · have hnone : dlookup body "Variables" = none := by
        rcases ho : dlookup body "Variables" with _ | v0
        · rfl
        · exact absurd (by simp [dmem, ho]) hv
      simp only [hv, if_neg, Bool.false_eq_true, not_false_iff]
      rw [dlookup_dset]
      simp [globalVars, hnone]
  have hE : dlookup base "Variables" = some (.varsObj (globalVars body)) := by
    rw [hbase, dlookup_dremove_ne _ _ _ hVT, hD]
  have hF : globalVars base = globalVars body := by
    have h1 : globalVars base = (match dlookup base "Variables" with
      | some (MJVal.varsObj v) => v
      | _ => []) := rfl
    rw [h1, hE]
  have hG : ∀ k, k ≠ "To" → k ≠ "Variables" → dlookup base k = dlookup body k := by
    intro k hkT hkV
    rw [hbase, dlookup_dremove_ne _ _ _ hkT, hbody0]
    by_cases hv : dmem body "Variables" = true
    · simp [hv]
    · have hVk : ¬("Variables" = k) := fun h => hkV h.symm
      simp [hv, dlookup_dset, hVk]
  rw [show _expand_merge_data body md = (toRecipients body0).map (fun toItem =>
      let data := dset base "To" (.emailList [toItem])
      match dlookup md toItem.Email with
      | some mvars =>
        dset data "Variables" (.varsObj (_strip_none (pyUpdate (globalVars base) mvars)))
      | none => data) from rfl] at hd
  rw [List.getElem?_map] at hd
  rcases Option.map_eq_some'.mp hd with ⟨toItem, hti, hfd⟩
  refine ⟨toItem, by rw [← htos]; exact hti, ?_⟩
  rcases hmv : dlookup md toItem.Email with _ | mvars
  · rw [hmv] at hfd
    simp only at hfd
    subst hfd
    refine ⟨?_, ?_, globalVars body, ?_, hgvnull, ?_, ?_⟩
    · rw [dlookup_dset, if_pos rfl]
    · intro k hkT hkV
      have hTk : ¬("To" = k) := fun h => hkT h.symm
      rw [dlookup_dset, if_neg hTk]
      exact hG k hkT hkV
    · rw [dlookup_dset, if_neg hTV]
      exact hE
    · intro p hp
      exact Or.inl hp
    · intro mvars hmv2
      simp at hmv2
  · rw [hmv] at hfd
    simp only at hfd
    subst hfd
    have hmvnodup : (mvars.map Prod.fst).Nodup := hmd _ (dlookup_mem _ _ _ hmv)
    refine ⟨?_, ?_, _strip_none (pyUpdate (globalVars base) mvars), ?_, ?_, ?_, ?_⟩
    · rw [dlookup_dset, if_neg hVT, dlookup_dset, if_pos rfl]
    · intro k hkT hkV
      have hTk : ¬("To" = k) := fun h => hkT h.symm
      have hVk : ¬("Variables" = k) := fun h => hkV h.symm
      rw [dlookup_dset, if_neg hVk, dlookup_dset, if_neg hTk]
      exact hG k hkT hkV
    · rw [dlookup_dset, if_pos rfl]
    · intro p hp
      exact ((mem_strip_none _ _).mp hp).2
    · intro p hp
      have hp2 := ((mem_strip_none _ _).mp hp).1
      rcases mem_pyUpdate _ _ _ hp2 with h | h
      · rw [hF] at h
        exact Or.inl h
      · exact Or.inr ⟨mvars, rfl, h⟩
    · intro mvars2 hmv2 k
      have hmm : mvars2 = mvars := by
        injection hmv2 with h2
        exact h2.symm
      subst hmm
      rw [dlookup_strip_none _ _ (pyUpdate_keys_nodup _ _ (by rw [hF]; exact hgv)),
        dlookup_pyUpdate _ _ _ hmvnodup, hF]
      cases dlookup mvars2 k <;> rfl

theorem expand_length (body : List (String × MJVal))
    (md : List (String × List (String × JVal))) :
    (_expand_merge_data body md).length = (toRecipients body).length := by
  have hVT : ("Variables" : String) ≠ "To" := by decide
  simp only [_expand_merge_data, List.length_map]
  unfold toRecipients
  by_cases hv : dmem body "Variables" = true
  · simp [hv]
  · simp [hv, dlookup_dset, hVT]

theorem serialize_with_merge (st : MailjetPayloadState)
    (md : List (String × List (String × JVal)))
    (hh : st.headers = []) (hm : st.merge_data = some md)
    (hsb : dlookup st.body "SandboxMode" = none) :
    serialize_data st = (_expand_merge_data st.body md, none) := by
  simp [serialize_data, hh, hm, ciPop, hsb, dremove_of_notmem _ _ hsb]

end Mailjet

/-- C5: Mailjet merge-data serialization expands the payload into one wire
sub-message per To recipient: each sub-message copies the shared fields, is
addressed to exactly that one recipient, carries that recipient's merge
variables overlaid on the global variables with null-valued variables omitted,
and contains no variables beyond the globals and its own recipient's merge
data. -/
theorem mailjet_merge_data_expansion
    (body : List (String × Mailjet.MJVal))
    (md : List (String × List (String × JVal)))
    (hvars : dlookup body "Variables" = none ∨
      dlookup body "Variables" = some (.varsObj (Mailjet.globalVars body)))
    (hgv : ((Mailjet.globalVars body).map Prod.fst).Nodup)
    (hgvnull : ∀ p ∈ Mailjet.globalVars body, p.2 ≠ JVal.null)
    (hmd : ∀ q ∈ md, (q.2.map Prod.fst).Nodup) :
    (Mailjet._expand_merge_data body md).length
      = (Mailjet.toRecipients body).length ∧
    (∀ (i : Nat) (d : List (String × Mailjet.MJVal)),
      (Mailjet._expand_merge_data body md)[i]? = some d →
      ∃ toItem, (Mailjet.toRecipients body)[i]? = some toItem ∧
        dlookup d "To" = some (.emailList [toItem]) ∧
        (∀ k, k ≠ "To" → k ≠ "Variables" → dlookup d k = dlookup body k) ∧
        ∃ vs, dlookup d "Variables" = some (.varsObj vs) ∧
          (∀ p ∈ vs, p.2 ≠ JVal.null) ∧
          (∀ p ∈ vs, p ∈ Mailjet.globalVars body ∨
            ∃ mvars, dlookup md toItem.Email = some mvars ∧ p ∈ mvars) ∧
          (∀ mvars, dlookup md toItem.Email = some mvars →
            ∀ k, dlookup vs k =
              stripVal (match dlookup mvars k with
                | some x => some x
                | none => dlookup (Mailjet.globalVars body) k))) ∧
    (∀ st : Mailjet.MailjetPayloadState, st.headers = [] → st.body = body →
      st.merge_data = some md → dlookup body "SandboxMode" = none →
      Mailjet.serialize_data st = (Mailjet._expand_merge_data body md, none)) :=
  ⟨Mailjet.expand_length body md,
   fun i d hd =>
     Mailjet.expand_entry_characterization body md hvars hgv hgvnull hmd i d hd,
   fun st hh hb hm hsb => by
     subst hb
     exact Mailjet.serialize_with_merge st md hh hm hsb⟩

/-- Witness for C5 at a concrete two-recipient payload with one merge entry. -/
theorem mailjet_merge_data_expansion_witness :
    ((dlookup Mailjet.mergeFixtureBody "Variables" = none ∨
        dlookup Mailjet.mergeFixtureBody "Variables"
          = some (.varsObj (Mailjet.globalVars Mailjet.mergeFixtureBody))) ∧
      ((Mailjet.globalVars Mailjet.mergeFixtureBody).map Prod.fst).Nodup ∧
      (∀ p ∈ Mailjet.globalVars Mailjet.mergeFixtureBody, p.2 ≠ JVal.null) ∧
      (∀ q ∈ Mailjet.mergeFixtureMd, (q.2.map Prod.fst).Nodup)) ∧
    ((Mailjet._expand_merge_data Mailjet.mergeFixtureBody Mailjet.mergeFixtureMd).length
        = (Mailjet.toRecipients Mailjet.mergeFixtureBody).length ∧
      (∀ (i : Nat) (d : List (String × Mailjet.MJVal)),
        (Mailjet._expand_merge_data Mailjet.mergeFixtureBody Mailjet.mergeFixtureMd)[i]?
          = some d →
        ∃ toItem,
          (Mailjet.toRecipients Mailjet.mergeFixtureBody)[i]? = some toItem ∧
          dlookup d "To" = some (.emailList [toItem]) ∧
          (∀ k, k ≠ "To" → k ≠ "Variables" →
            dlookup d k = dlookup Mailjet.mergeFixtureBody k) ∧
          ∃ vs, dlookup d "Variables" = some (.varsObj vs) ∧
            (∀ p ∈ vs, p.2 ≠ JVal.null) ∧
            (∀ p ∈ vs, p ∈ Mailjet.globalVars Mailjet.mergeFixtureBody ∨
              ∃ mvars, dlookup Mailjet.mergeFixtureMd toItem.Email = some mvars ∧
                p ∈ mvars) ∧
            (∀ mvars, dlookup Mailjet.mergeFixtureMd toItem.Email = some mvars →
              ∀ k, dlookup vs k =
                stripVal (match dlookup mvars k with
                  | some x => some x
                  | none => dlookup (Mailjet.globalVars Mailjet.mergeFixtureBody) k))) ∧
      (∀ st : Mailjet.MailjetPayloadState, st.headers = [] →
        st.body = Mailjet.mergeFixtureBody →
        st.merge_data = some Mailjet.mergeFixtureMd →
        dlookup Mailjet.mergeFixtureBody "SandboxMode" = none →
        Mailjet.serialize_data st
          = (Mailjet._expand_merge_data Mailjet.mergeFixtureBody
              Mailjet.mergeFixtureMd, none))) :=
  ⟨⟨by decide, by decide, by decide, by decide⟩,
   mailjet_merge_data_expansion Mailjet.mergeFixtureBody Mailjet.mergeFixtureMd
     (by decide) (by decide) (by decide) (by decide)⟩

/-- C7: an Amazon SES send supplying template_id, merge_data, or
merge_global_data aborts payload construction with an UnsupportedFeature
naming that field (merge_global_data is named "global_merge_data" by the
backend), and the ESP is never called for that send. -/
theorem amazon_ses_unsupported_template_fields
    (cfg : Option String) (m : AmazonSES.Message) :
    (∀ t, m.template_id = some t →
      AmazonSES.send_message cfg m = .aborted "template_id") ∧
    (m.template_id = none → ∀ md, m.merge_data = some md →
      AmazonSES.send_message cfg m = .aborted "merge_data without template_id") ∧
    (m.template_id = none → m.merge_data = none →
      ∀ g, m.merge_global_data = some g →
      AmazonSES.send_message cfg m
        = .aborted "global_merge_data without template_id") ∧
    ((m.template_id.isSome = true ∨ m.merge_data.isSome = true ∨
        m.merge_global_data.isSome = true) →
      ∀ p, AmazonSES.send_message cfg m ≠ .calledESP p) := by
  refine ⟨?_, ?_, ?_, ?_⟩
  · intro t ht
    simp [AmazonSES.send_message, AmazonSES.build_payload, runSteps, ht]
  · intro ht md hmd
    simp [AmazonSES.send_message, AmazonSES.build_payload, runSteps, ht, hmd]
  · intro ht hmd g hg
    simp [AmazonSES.send_message, AmazonSES.build_payload, runSteps, ht, hmd, hg]
  · intro hor p
    cases htid : m.template_id with
    | some t =>
      simp [AmazonSES.send_message, AmazonSES.build_payload, runSteps, htid]
    | none =>
      cases hmd2 : m.merge_data with
      | some md =>
        simp [AmazonSES.send_message, AmazonSES.build_payload, runSteps, htid, hmd2]
      | none =>
        cases hg2 : m.merge_global_data with
        | some g =>
          simp [AmazonSES.send_message, AmazonSES.build_payload, runSteps,
            htid, hmd2, hg2]
        | none =>
          rw [htid, hmd2, hg2] at hor
          simp at hor

/-- Witness for C7: the template-send fixture aborts with "template_id" and
the ESP is not called. -/
theorem amazon_ses_unsupported_template_fields_witness :
    AmazonSES.templateFixtureMessage.template_id = some "welcome_template" ∧
    AmazonSES.send_message none AmazonSES.templateFixtureMessage
      = .aborted "template_id" ∧
    (∀ p, AmazonSES.send_message none AmazonSES.templateFixtureMessage
      ≠ .calledESP p) :=
  ⟨rfl,
   (amazon_ses_unsupported_template_fields none AmazonSES.templateFixtureMessage).1
     "welcome_template" rfl,
   (amazon_ses_unsupported_template_fields none
       AmazonSES.templateFixtureMessage).2.2.2 (Or.inl (by decide))⟩

namespace AmazonSES

theorem joinDunder_mem (l : List String) (x : String) (hx : x ∈ l) :
    ∃ pre post : List Char, (joinDunder l).data = pre ++ x.data ++ post := by
  induction l with
  | nil => simp at hx
  | cons t rest ih =>
    rcases List.mem_cons.mp hx with h | h
    · subst h
      cases rest with
      | nil => exact ⟨[], [], by simp [joinDunder]⟩
      | cons r rr =>
        refine ⟨[], ("__" ++ joinDunder (r :: rr)).data, ?_⟩
        rw [show joinDunder (x :: r :: rr) = x ++ "__" ++ joinDunder (r :: rr)
          from rfl]
        simp [string_data_append, List.append_assoc]
    · cases rest with
      | nil => simp at h
      | cons r rr =>
        rcases ih h with ⟨pre, post, hp⟩
        refine ⟨(t ++ "__").data ++ pre, post, ?_⟩
        rw [show joinDunder (t :: r :: rr) = t ++ "__" ++ joinDunder (r :: rr)
          from rfl, string_data_append, hp]
        simp [string_data_append, List.append_assoc]

theorem init_mime (cfg : Option String) (mh : List (String × HVal)) :
    (init_payload cfg mh).mime_headers = mh := rfl

theorem init_tags (cfg : Option String) (mh : List (String × HVal)) :
    dlookup (init_payload cfg mh).params "Tags" = none := by
  cases cfg <;> simp [init_payload, dlookup]

theorem from_email_list_mime (st : AmazonSESPayloadState)
    (es : List EmailAddress) :
    (set_from_email_list st es).mime_headers = st.mime_headers := by
  rcases es with _ | ⟨e1, _ | ⟨e2, rest⟩⟩ <;> rfl

theorem from_email_list_tags (st : AmazonSESPayloadState)
    (es : List EmailAddress) :
    dlookup (set_from_email_list st es).params "Tags"
      = dlookup st.params "Tags" := by
  rcases es with _ | ⟨e1, _ | ⟨e2, rest⟩⟩
  · rfl
  · rfl
  · rw [show (set_from_email_list st (e1 :: e2 :: rest)).params
        = dset st.params "Source" (.str e1.addr_spec) from rfl,
      dlookup_dset, if_neg (by decide)]

theorem recipients_mime (st : AmazonSESPayloadState) (es : List EmailAddress) :
    (set_recipients st es).mime_headers = st.mime_headers := rfl

theorem recipients_params (st : AmazonSESPayloadState) (es : List EmailAddress) :
    (set_recipients st es).params = st.params := rfl

theorem spoofed_mime (st : AmazonSESPayloadState) :
    (set_spoofed_to_header st).mime_headers = st.mime_headers := rfl

theorem spoofed_tags (st : AmazonSESPayloadState) :
    dlookup (set_spoofed_to_header st).params "Tags"
      = dlookup st.params "Tags" := by
  rw [show (set_spoofed_to_header st).params
      = dset st.params "Destinations" (.strList st.all_recipients) from rfl,
    dlookup_dset, if_neg (by decide)]

theorem envelope_mime (st : AmazonSESPayloadState) (e : EmailAddress) :
    (set_envelope_sender st e).mime_headers = st.mime_headers := rfl

theorem envelope_tags (st : AmazonSESPayloadState) (e : EmailAddress) :
    dlookup (set_envelope_sender st e).params "Tags"
      = dlookup st.params "Tags" := by
  rw [show (set_envelope_sender st e).params
      = dset st.params "Source" (.str e.addr_spec) from rfl,
    dlookup_dset, if_neg (by decide)]

theorem prefixState_mime (cfg : Option String) (m : Message) :
    (prefixState cfg m).mime_headers = m.mime_headers := by
  unfold prefixState
  rcases m.envelope_sender with _ | e <;> cases m.spoofed_to <;>
    simp [envelope_mime, spoofed_mime, recipients_mime, from_email_list_mime,
      init_mime]

theorem prefixState_tags (cfg : Option String) (m : Message) :
    dlookup (prefixState cfg m).params "Tags" = none := by
  unfold prefixState
  rcases m.envelope_sender with _ | e <;> cases m.spoofed_to <;>
    simp [envelope_tags, spoofed_tags, recipients_params, from_email_list_tags,
      init_tags]

theorem build_payload_shape (cfg : Option String) (m : Message)
    (md : List (String × String)) (ts : List String)
    (hmd : m.metadata = some md) (hts : m.tags = some ts)
    (htid : m.template_id = none) (hmg : m.merge_data = none)
    (hmgd : m.merge_global_data = none) (hex : m.esp_extra = none) :
    build_payload cfg m = (set_tags (set_metadata (prefixState cfg m) md) ts, none) := by
  simp only [build_payload, runSteps, prefixState, hmd, hts, htid, hmg, hmgd, hex]

theorem metadata_tags_channels (s : AmazonSESPayloadState)
    (md : List (String × String)) (ts : List String)
    (hTags : dlookup s.params "Tags" = none) :
    (set_tags (set_metadata s md) ts).mime_headers
      = s.mime_headers ++ [("X-Metadata", HVal.jsonObj md)]
        ++ ts.map (fun t => ("X-Tag", HVal.text t)) ∧
    dlookup (get_api_params (set_tags (set_metadata s md) ts)) "Tags"
      = some (.tagList
          ((md.map fun kv => SESTag.mk (_clean_tag kv.1) (_clean_tag kv.2))
            ++ [SESTag.mk "Tags" (joinDunder (ts.map _clean_tag))])) := by
  have h1 : getTagsParam s.params = [] := by
    unfold getTagsParam
    rw [hTags]
  have h2 : (set_metadata s md).params
      = dset s.params "Tags"
          (.tagList ([] ++ md.map fun kv =>
            SESTag.mk (_clean_tag kv.1) (_clean_tag kv.2))) := by
    rw [show (set_metadata s md).params
        = dset s.params "Tags" (.tagList (getTagsParam s.params
            ++ md.map fun kv => SESTag.mk (_clean_tag kv.1) (_clean_tag kv.2)))
      from rfl, h1]
  have h3 : getTagsParam (set_metadata s md).params
      = [] ++ md.map fun kv => SESTag.mk (_clean_tag kv.1) (_clean_tag kv.2) := by
    rw [h2]
    unfold getTagsParam
    rw [dlookup_dset, if_pos rfl]
  constructor
  · rfl
  · rw [show (get_api_params (set_tags (set_metadata s md) ts))
        = dset (set_tags (set_metadata s md) ts).params "RawMessage"
            (.rawMessage (set_tags (set_metadata s md) ts).mime_headers) from rfl,
      dlookup_dset, if_neg (by decide),
      show (set_tags (set_metadata s md) ts).params
        = dset (set_metadata s md).params "Tags"
            (.tagList (getTagsParam (set_metadata s md).params
              ++ [SESTag.mk "Tags" (joinDunder (ts.map _clean_tag))])) from rfl,
      h3, dlookup_dset, if_pos rfl]
    simp

end AmazonSES

/-- C9: for an Amazon SES send with metadata (and tags), each metadata
key/value is delivered through both channels — inside the JSON X-Metadata
custom header of the raw MIME message and as a cleaned Name/Value pair in the
request's Tags parameter — and likewise each tag appears as an X-Tag header
and (cleaned) inside the single Tags-named entry of the Tags parameter. -/
theorem amazon_ses_metadata_tags_both_channels
    (cfg : Option String) (m : AmazonSES.Message)
    (md : List (String × String)) (ts : List String)
    (hmd : m.metadata = some md) (hts : m.tags = some ts)
    (htid : m.template_id = none) (hmg : m.merge_data = none)
    (hmgd : m.merge_global_data = none) (hex : m.esp_extra = none) :
    ∃ st : AmazonSES.AmazonSESPayloadState,
      AmazonSES.build_payload cfg m = (st, none) ∧
      ∃ l, dlookup (AmazonSES.get_api_params st) "Tags"
          = some (AmazonSES.PVal.tagList l) ∧
        (∀ p ∈ md,
          ("X-Metadata", AmazonSES.HVal.jsonObj md) ∈ st.mime_headers ∧
          AmazonSES.SESTag.mk (AmazonSES._clean_tag p.1)
            (AmazonSES._clean_tag p.2) ∈ l) ∧
        (∀ t ∈ ts,
          ("X-Tag", AmazonSES.HVal.text t) ∈ st.mime_headers ∧
          ∃ entry, entry ∈ l ∧ entry.Name = "Tags" ∧
            ∃ pre post : List Char,
              entry.Value.data = pre ++ (AmazonSES._clean_tag t).data ++ post) := by
  have hshape :=
    AmazonSES.build_payload_shape cfg m md ts hmd hts htid hmg hmgd hex
  have hchan :=
    AmazonSES.metadata_tags_channels (AmazonSES.prefixState cfg m) md ts
      (AmazonSES.prefixState_tags cfg m)
  refine ⟨AmazonSES.set_tags (AmazonSES.set_metadata
      (AmazonSES.prefixState cfg m) md) ts, hshape,
    (md.map fun kv => AmazonSES.SESTag.mk (AmazonSES._clean_tag kv.1)
        (AmazonSES._clean_tag kv.2))
      ++ [AmazonSES.SESTag.mk "Tags"
          (AmazonSES.joinDunder (ts.map AmazonSES._clean_tag))],
    hchan.2, ?_, ?_⟩
  · intro p hp
    constructor
    · rw [hchan.1]
      simp
    · exact List.mem_append_left _ (List.mem_map.mpr ⟨p, hp, rfl⟩)
  · intro t ht
    constructor
    · rw [hchan.1]
      simp only [List.mem_append]
      right
      exact List.mem_map.mpr ⟨t, ht, rfl⟩
    · refine ⟨AmazonSES.SESTag.mk "Tags"
        (AmazonSES.joinDunder (ts.map AmazonSES._clean_tag)),
        List.mem_append_right _ (by simp), rfl, ?_⟩
      exact AmazonSES.joinDunder_mem _ _ (List.mem_map.mpr ⟨t, ht, rfl⟩)

/-- Witness for C9 at a concrete metadata/tags send. -/
theorem amazon_ses_metadata_tags_both_channels_witness :
    sesMetadataFixture.metadata
      = some [("user_id", "12345"), ("items", "horse-battery-staple")] ∧
    sesMetadataFixture.tags = some ["receipt", "repeat-user"] ∧
    ∃ st : AmazonSES.AmazonSESPayloadState,
      AmazonSES.build_payload none sesMetadataFixture = (st, none) ∧
      ∃ l, dlookup (AmazonSES.get_api_params st) "Tags"
          = some (AmazonSES.PVal.tagList l) ∧
        (∀ p ∈ [("user_id", "12345"), ("items", "horse-battery-staple")],
          ("X-Metadata", AmazonSES.HVal.jsonObj
            [("user_id", "12345"), ("items", "horse-battery-staple")])
              ∈ st.mime_headers ∧
          AmazonSES.SESTag.mk (AmazonSES._clean_tag p.1)
            (AmazonSES._clean_tag p.2) ∈ l) ∧
        (∀ t ∈ ["receipt", "repeat-user"],
          ("X-Tag", AmazonSES.HVal.text t) ∈ st.mime_headers ∧
          ∃ entry, entry ∈ l ∧ entry.Name = "Tags" ∧
            ∃ pre post : List Char,
              entry.Value.data = pre ++ (AmazonSES._clean_tag t).data ++ post) :=
  ⟨rfl, rfl,
   amazon_ses_metadata_tags_both_channels none sesMetadataFixture
     [("user_id", "12345"), ("items", "horse-battery-staple")]
     ["receipt", "repeat-user"] rfl rfl rfl rfl rfl rfl⟩

theorem dlookup_dset_ne {α : Type u} (m : List (String × α)) (k : String) (v : α)
    (key : String) (h : ¬k = key) : dlookup (dset m k v) key = dlookup m key := by
  rw [dlookup_dset, if_neg h]

namespace Mailjet

theorem mj_init_headers : init_payload.headers = [] := rfl

theorem mj_init_merge : init_payload.merge_data = none := rfl

theorem mj_init_body : init_payload.body = [] := rfl

theorem mj_from_headers (st : MailjetPayloadState) (e : EmailAddress) :
    (set_from_email st e).headers = st.headers := rfl

theorem mj_from_merge (st : MailjetPayloadState) (e : EmailAddress) :
    (set_from_email st e).merge_data = st.merge_data := rfl

theorem mj_from_body_ne (st : MailjetPayloadState) (e : EmailAddress)
    (k : String) (h : ¬("From" = k)) :
    dlookup (set_from_email st e).body k = dlookup st.body k := by
  rw [show (set_from_email st e).body
      = dset st.body "From" (.emailObj (_mailjet_email e)) from rfl,
    dlookup_dset_ne _ _ _ _ h]

theorem mj_recipients_headers (st : MailjetPayloadState) (f : String)
    (es : List EmailAddress) : (set_recipients st f es).headers = st.headers := by
  unfold set_recipients
  split <;> rfl

theorem mj_recipients_merge (st : MailjetPayloadState) (f : String)
    (es : List EmailAddress) :
    (set_recipients st f es).merge_data = st.merge_data := by
  unfold set_recipients
  split <;> rfl

theorem mj_recipients_body_ne (st : MailjetPayloadState) (f : String)
    (es : List EmailAddress) (k : String) (h : ¬(f = k)) :
    dlookup (set_recipients st f es).body k = dlookup st.body k := by
  unfold set_recipients
  by_cases hl : es.length > 0
  · simp only [hl, if_pos]
    exact dlookup_dset_ne _ _ _ _ h
  · simp only [hl, if_neg, not_false_iff]

theorem mj_subject_headers (st : MailjetPayloadState) (s : String) :
    (set_subject st s).headers = st.headers := rfl

theorem mj_subject_merge (st : MailjetPayloadState) (s : String) :
    (set_subject st s).merge_data = st.merge_data := rfl

theorem mj_subject_body_ne (st : MailjetPayloadState) (s : String)
    (k : String) (h : ¬("Subject" = k)) :
    dlookup (set_subject st s).body k = dlookup st.body k := by
  rw [show (set_subject st s).body = dset st.body "Subject" (.str s) from rfl,
    dlookup_dset_ne _ _ _ _ h]

theorem mj_text_headers (st : MailjetPayloadState) (b : String) :
    (set_text_body st b).headers = st.headers := by
  unfold set_text_body
  split <;> rfl

theorem mj_text_merge (st : MailjetPayloadState) (b : String) :
    (set_text_body st b).merge_data = st.merge_data := by
  unfold set_text_body
  split <;> rfl

theorem mj_text_body_ne (st : MailjetPayloadState) (b : String)
    (k : String) (h : ¬("TextPart" = k)) :
    dlookup (set_text_body st b).body k = dlookup st.body k := by
  unfold set_text_body
  by_cases hb : b = ""
  · simp only [hb, if_pos]
  · simp only [hb, if_neg, not_false_iff]
    exact dlookup_dset_ne _ _ _ _ h

end Mailjet

/-- C8: when the caller sets no optional field (metadata, tags, template,
configuration set, envelope sender, extra headers, esp_extra, tracking,
merge data, ...), the corresponding keys are entirely absent from the
serialized wire request of both the Amazon SES and the Mailjet payload
builders — never present with an empty, false or zero value. -/
theorem default_send_omits_unset_options :
    (∀ (m : AmazonSES.Message) (f : EmailAddress),
      m.from_emails = [f] → m.spoofed_to = false → m.envelope_sender = none →
      m.metadata = none → m.tags = none → m.template_id = none →
      m.merge_data = none → m.merge_global_data = none → m.esp_extra = none →
      ∃ st, AmazonSES.build_payload none m = (st, none) ∧
        AmazonSES.get_api_params st
          = [("RawMessage", AmazonSES.PVal.rawMessage m.mime_headers)] ∧
        (∀ k, k ≠ "RawMessage" →
          dlookup (AmazonSES.get_api_params st) k = none)) ∧
    (∀ m : Mailjet.Message,
      m.cc = [] → m.bcc = [] → m.reply_to = [] → m.extra_headers = [] →
      m.html_body = none → m.attachments = [] → m.envelope_sender = none →
      m.metadata = none → m.tags = none → m.track_clicks = none →
      m.track_opens = none → m.template_id = none → m.merge_data = none →
      m.merge_global_data = none → m.esp_extra = none →
      ∃ st : Mailjet.MailjetPayloadState,
        Mailjet.build m = (st, none) ∧
        Mailjet.serialize_data st = ([st.body], none) ∧
        (∀ k, k ≠ "From" → k ≠ "To" → k ≠ "Subject" → k ≠ "TextPart" →
          dlookup st.body k = none)) := by
  constructor
  · intro m f hfe hsp henv hmd hts htid hmg hmgd hex
    refine ⟨AmazonSES.set_recipients (AmazonSES.set_recipients
        (AmazonSES.set_recipients (AmazonSES.set_from_email_list
          (AmazonSES.init_payload none m.mime_headers) [f]) m.to_) m.cc) m.bcc,
      ?_, ?_, ?_⟩
    · simp only [AmazonSES.build_payload, hfe, hsp, henv, hmd, hts, htid, hmg,
        hmgd, hex]
      rfl
    · rfl
    · intro k hk
      have hne : ¬("RawMessage" = k) := fun h => hk h.symm
      rw [show AmazonSES.get_api_params (AmazonSES.set_recipients
          (AmazonSES.set_recipients (AmazonSES.set_recipients
            (AmazonSES.set_from_email_list
              (AmazonSES.init_payload none m.mime_headers) [f]) m.to_) m.cc) m.bcc)
          = [("RawMessage", AmazonSES.PVal.rawMessage m.mime_headers)] from rfl]
      simp [dlookup, hne]
  · intro m hcc hbcc hrt heh hhb hatt henv hmd hts htc hto htid hmg hmgd hex
    refine ⟨Mailjet.set_text_body (Mailjet.set_subject (Mailjet.set_recipients
        (Mailjet.set_from_email Mailjet.init_payload m.from_email) "To" m.to_)
        m.subject) m.text_body, ?_, ?_, ?_⟩
    · simp only [Mailjet.build, hcc, hbcc, hrt, heh, hhb, hatt, henv, hmd, hts,
        htc, hto, htid, hmg, hmgd, hex]
      rfl
    · have hheaders : (Mailjet.set_text_body (Mailjet.set_subject
          (Mailjet.set_recipients (Mailjet.set_from_email Mailjet.init_payload
            m.from_email) "To" m.to_) m.subject) m.text_body).headers = [] := by
        rw [Mailjet.mj_text_headers, Mailjet.mj_subject_headers,
          Mailjet.mj_recipients_headers, Mailjet.mj_from_headers,
          Mailjet.mj_init_headers]
      have hmerge : (Mailjet.set_text_body (Mailjet.set_subject
          (Mailjet.set_recipients (Mailjet.set_from_email Mailjet.init_payload
            m.from_email) "To" m.to_) m.subject) m.text_body).merge_data = none := by
        rw [Mailjet.mj_text_merge, Mailjet.mj_subject_merge,
          Mailjet.mj_recipients_merge, Mailjet.mj_from_merge,
          Mailjet.mj_init_merge]
      have hsb : dlookup (Mailjet.set_text_body (Mailjet.set_subject
          (Mailjet.set_recipients (Mailjet.set_from_email Mailjet.init_payload
            m.from_email) "To" m.to_) m.subject) m.text_body).body "SandboxMode"
          = none := by
        rw [Mailjet.mj_text_body_ne _ _ _ (by decide),
          Mailjet.mj_subject_body_ne _ _ _ (by decide),
          Mailjet.mj_recipients_body_ne _ _ _ _ (by decide),
          Mailjet.mj_from_body_ne _ _ _ (by decide)]
        rfl
      simp [Mailjet.serialize_data, hheaders, Mailjet.ciPop, hsb,
        dremove_of_notmem _ _ hsb, hmerge]
    · intro k hk1 hk2 hk3 hk4
      rw [Mailjet.mj_text_body_ne _ _ _ (fun h => hk4 h.symm),
        Mailjet.mj_subject_body_ne _ _ _ (fun h => hk3 h.symm),
        Mailjet.mj_recipients_body_ne _ _ _ _ (fun h => hk2 h.symm),
        Mailjet.mj_from_body_ne _ _ _ (fun h => hk1 h.symm)]
      rfl

/-- Witness for C8 at concrete default sends for both backends. -/
theorem default_send_omits_unset_options_witness :
    (∃ st, AmazonSES.build_payload none sesDefaultFixture = (st, none) ∧
      AmazonSES.get_api_params st
        = [("RawMessage", AmazonSES.PVal.rawMessage sesDefaultFixture.mime_headers)] ∧
      (∀ k, k ≠ "RawMessage" →
        dlookup (AmazonSES.get_api_params st) k = none)) ∧
    (∃ st : Mailjet.MailjetPayloadState,
      Mailjet.build mjDefaultFixture = (st, none) ∧
      Mailjet.serialize_data st = ([st.body], none) ∧
      (∀ k, k ≠ "From" → k ≠ "To" → k ≠ "Subject" → k ≠ "TextPart" →
        dlookup st.body k = none)) :=
  ⟨default_send_omits_unset_options.1 sesDefaultFixture ⟨"from@example.com", ""⟩
      rfl rfl rfl rfl rfl rfl rfl rfl rfl,
   default_send_omits_unset_options.2 mjDefaultFixture
      rfl rfl rfl rfl rfl rfl rfl rfl rfl rfl rfl rfl rfl rfl rfl⟩
